import Mathlib

/-!
Verification of the transaction-bundle orchestrator
(`executeStandardPTOperations`) and its five record writers, shallowly
embedded from the TypeScript sources:

* `src/index.ts`        — the orchestrator
* `src/db/index.ts`     — the five writer operations
* `src/db/schemas.ts`   — zod schemas for the writers' parameters
* `src/schemas.ts`      — zod schema for the bundle input
* `src/types/index.ts`  — enums and result shape
* `src/helpers`         — `genId`, `getEnvVariable`, `formatDate`

Numbers (`amount`, `interactionTypeId`, `paymentMethod`, `promoAmount`)
are modelled as `Rat`: every claim only compares them with `0` or with
enum constants, so the rationals faithfully carry the order/equality
structure the code uses.  Effects are made explicit: the random-id
generator is a stream `gen : Nat → String` indexed by call count, the
wall clock is an epoch-millisecond value `nowMs`, the store's response
to its n-th call is `storeFail : Nat → Option String` (`none` = the
call succeeds), and every issued RDS call is recorded in a trace.
-/

namespace PT

/-- `PaymentMethod` enum (src/types/index.ts): `FedNow = 0`. -/
def PaymentMethodFedNow : Rat := 0

/-- `PaymentMethod` enum (src/types/index.ts): `Card = 1`. -/
def PaymentMethodCard : Rat := 1

/-- `PaymentStatus` enum (src/types/index.ts): `COMPLETE = 4`. -/
def PaymentStatusCOMPLETE : Rat := 4

/-- `PaymentStatus` enum (src/types/index.ts): `PENDING = 5`. -/
def PaymentStatusPENDING : Rat := 5

/-! ## zod validation model (src/schemas.ts, src/db/schemas.ts)

zod's `.parse` walks every field of the object schema and aggregates all
issues; we model one issue as a `Violation` (field path + issue code) and
each schema as a function returning the aggregated issue list, `[]`
meaning the parse succeeds. -/

/-- One zod issue: the path of the offending field and the issue code
(e.g. `too_small` for a short string or a negative number). -/
structure Violation where
  path : List String
  code : String
deriving Repr, DecidableEq

/-- `z.string().length(32)`: `too_small` below 32 chars, `too_big` above. -/
def checkLen32 (path : List String) (s : String) : List Violation :=
  if s.length < 32 then [⟨path, "too_small"⟩]
  else if 32 < s.length then [⟨path, "too_big"⟩]
  else []

/-- `z.number().nonnegative()`. -/
def checkNonneg (path : List String) (q : Rat) : List Violation :=
  if q < 0 then [⟨path, "too_small"⟩] else []

/-- `z.number()`: only the runtime type is checked, which the embedding
guarantees, so no issue is ever produced. -/
def checkNumber (path : List String) (q : Rat) : List Violation :=
  let _ := path
  let _ := q
  []

/-- `z.string()`: only the runtime type is checked, which the embedding
guarantees, so no issue is ever produced. -/
def checkString (path : List String) (s : String) : List Violation :=
  let _ := path
  let _ := s
  []

/-- `z.nativeEnum(PaymentMethod)`: the value must be one of the enum's
numeric values `{0, 1}`. -/
def checkPaymentMethodEnum (path : List String) (q : Rat) : List Violation :=
  if q = PaymentMethodFedNow ∨ q = PaymentMethodCard then []
  else [⟨path, "invalid_enum_value"⟩]

/-- `.optional()`: an absent field is accepted, a present one is checked. -/
def checkOpt {α : Type} (check : List String → α → List Violation)
    (path : List String) (o : Option α) : List Violation :=
  match o with
  | none => []
  | some x => check path x

/-- `z.array(z.string()).nonempty()`. -/
def checkNonemptyArray (path : List String) (l : List String) : List Violation :=
  if l.isEmpty then [⟨path, "too_small"⟩] else []

/-- Prefix every violation's path with the parent object key, as zod does
for nested object schemas. -/
def underKey (key : String) (l : List Violation) : List Violation :=
  l.map fun v => ⟨key :: v.path, v.code⟩

/-! ## Input shapes (src/types/index.ts, src/schemas.ts) -/

/-- `UserPurchaseInformation` (src/types/index.ts).  `paymentMethod` is kept
as the raw number the enum values inhabit, since zod validates raw input. -/
structure UserPurchaseInformation where
  payerId : String
  payeeId : String
  developerId : String
  amount : Rat
  interactionTypeId : Rat
  paymentMethod : Rat
  payerAccountId : Option String
  payeeAccountId : Option String
deriving Repr, DecidableEq

/-- `PromotionInformation` (src/types/index.ts). -/
structure PromotionInformation where
  promoAmount : Option Rat
deriving Repr, DecidableEq

/-- `ExecuteStandardPTOperationsParams` (src/schemas.ts). -/
structure ExecuteStandardPTOperationsParams where
  userPurchaseInformation : UserPurchaseInformation
  promotionInformation : PromotionInformation
  sqlTransactionId : String
deriving Repr, DecidableEq

/-- `UserPurchaseInformationSchema` (src/schemas.ts), fields in the schema's
declaration order. -/
def UserPurchaseInformationSchema (u : UserPurchaseInformation) : List Violation :=
  checkLen32 ["payeeId"] u.payeeId ++
  checkLen32 ["payerId"] u.payerId ++
  checkOpt checkLen32 ["payerAccountId"] u.payerAccountId ++
  checkOpt checkLen32 ["payeeAccountId"] u.payeeAccountId ++
  checkLen32 ["developerId"] u.developerId ++
  checkNonneg ["amount"] u.amount ++
  checkNumber ["interactionTypeId"] u.interactionTypeId ++
  checkPaymentMethodEnum ["paymentMethod"] u.paymentMethod

/-- `PromotionInformationSchema` (src/schemas.ts). -/
def PromotionInformationSchema (p : PromotionInformation) : List Violation :=
  checkOpt (fun path q => checkNonneg path q) ["promoAmount"] p.promoAmount

/-- `ExecuteStandardPTOperationsParamsSchema` (src/schemas.ts). -/
def ExecuteStandardPTOperationsParamsSchema
    (p : ExecuteStandardPTOperationsParams) : List Violation :=
  underKey "userPurchaseInformation"
      (UserPurchaseInformationSchema p.userPurchaseInformation) ++
  underKey "promotionInformation"
      (PromotionInformationSchema p.promotionInformation) ++
  checkLen32 ["sqlTransactionId"] p.sqlTransactionId

/-! ## Writer parameter shapes and schemas (src/db/types.ts, src/db/schemas.ts) -/

/-- `InsertPaymentParams` (src/db/types.ts). -/
structure InsertPaymentParams where
  payerId : String
  payeeId : String
  developerId : String
  amount : Rat
  interactionTypeId : Rat
  paymentMethod : Rat
  sqlTransactionId : String
deriving Repr, DecidableEq

/-- `InsertPaymentParamsSchema` (src/db/schemas.ts). -/
def InsertPaymentParamsSchema (p : InsertPaymentParams) : List Violation :=
  checkLen32 ["payerId"] p.payerId ++
  checkLen32 ["payeeId"] p.payeeId ++
  checkLen32 ["developerId"] p.developerId ++
  checkNonneg ["amount"] p.amount ++
  checkNumber ["interactionTypeId"] p.interactionTypeId ++
  checkPaymentMethodEnum ["paymentMethod"] p.paymentMethod ++
  checkLen32 ["sqlTransactionId"] p.sqlTransactionId

/-- `InsertFedNowPaymentParams` (src/db/types.ts). -/
structure InsertFedNowPaymentParams where
  paymentId : String
  payerAccountId : String
  payeeAccountId : String
  sqlTransactionId : String
deriving Repr, DecidableEq

/-- `InsertFedNowPaymentParamsSchema` (src/db/schemas.ts). -/
def InsertFedNowPaymentParamsSchema (p : InsertFedNowPaymentParams) : List Violation :=
  checkLen32 ["paymentId"] p.paymentId ++
  checkLen32 ["payerAccountId"] p.payerAccountId ++
  checkLen32 ["payeeAccountId"] p.payeeAccountId ++
  checkLen32 ["sqlTransactionId"] p.sqlTransactionId

/-- `InsertLedgerEntryParams` (src/db/types.ts). -/
structure InsertLedgerEntryParams where
  payerId : String
  payeeId : String
  developerId : String
  amount : Rat
  interactionTypeId : Rat
  sqlTransactionId : String
deriving Repr, DecidableEq

/-- `InsertLedgerEntryParamsSchema` (src/db/schemas.ts): note that `amount`
is a plain `z.number()` (no `.nonnegative()`) and `sqlTransactionId` a plain
`z.string()` (no `.length(32)`). -/
def InsertLedgerEntryParamsSchema (p : InsertLedgerEntryParams) : List Violation :=
  checkLen32 ["payerId"] p.payerId ++
  checkLen32 ["payeeId"] p.payeeId ++
  checkLen32 ["developerId"] p.developerId ++
  checkNumber ["amount"] p.amount ++
  checkNumber ["interactionTypeId"] p.interactionTypeId ++
  checkString ["sqlTransactionId"] p.sqlTransactionId

/-- `InsertPromotionLedgerEntryParams` (src/db/types.ts). -/
structure InsertPromotionLedgerEntryParams where
  developerId : String
  payerId : String
  payeeId : String
  promoAmount : Rat
  interactionTypeId : Rat
  sqlTransactionId : String
deriving Repr, DecidableEq

/-- `InsertPromotionLedgerEntryParamsSchema` (src/db/schemas.ts). -/
def InsertPromotionLedgerEntryParamsSchema
    (p : InsertPromotionLedgerEntryParams) : List Violation :=
  checkLen32 ["developerId"] p.developerId ++
  checkLen32 ["payerId"] p.payerId ++
  checkLen32 ["payeeId"] p.payeeId ++
  checkNonneg ["promoAmount"] p.promoAmount ++
  checkNumber ["interactionTypeId"] p.interactionTypeId ++
  checkLen32 ["sqlTransactionId"] p.sqlTransactionId

/-- `InsertTransactionRecordParams` (src/db/types.ts). -/
structure InsertTransactionRecordParams where
  ledgerEntries : List String
  sqlTransactionId : String
deriving Repr, DecidableEq

/-- `InsertTransactionRecordParamsSchema` (src/db/schemas.ts). -/
def InsertTransactionRecordParamsSchema
    (p : InsertTransactionRecordParams) : List Violation :=
  checkNonemptyArray ["ledgerEntries"] p.ledgerEntries ++
  checkLen32 ["sqlTransactionId"] p.sqlTransactionId

/-! ## Date formatting (src/helpers: `formatDate`)

`formatDate` in the source is
`(date) => new Date().toISOString().slice(0, 19).replace('T', ' ')`.
We model a JS `Date` instant as its epoch-millisecond value and
`Date.prototype.toISOString` as the standard UTC rendering
`YYYY-MM-DDTHH:MM:SS.sssZ` (proleptic Gregorian, Howard Hinnant's
civil-from-days algorithm). -/

/-- Two zero-padded decimal digits of `n` (`n` rendered mod 100). -/
def pad2 (n : Nat) : List Char :=
  [Nat.digitChar (n / 10 % 10), Nat.digitChar (n % 10)]

/-- Three zero-padded decimal digits of `n` (rendered mod 1000). -/
def pad3 (n : Nat) : List Char :=
  Nat.digitChar (n / 100 % 10) :: pad2 n

/-- Four zero-padded decimal digits of `n` (rendered mod 10000). -/
def pad4 (n : Nat) : List Char :=
  Nat.digitChar (n / 1000 % 10) :: pad3 n

/-- Gregorian (year, month, day) from days since the Unix epoch. -/
def civilFromDays (days : Nat) : Nat × Nat × Nat :=
  let z := days + 719468
  let era := z / 146097
  let doe := z % 146097
  let yoe := (doe - doe / 1460 + doe / 36524 - doe / 146096) / 365
  let y := yoe + era * 400
  let doy := doe - (365 * yoe + yoe / 4 - yoe / 100)
  let mp := (5 * doy + 2) / 153
  let d := doy - (153 * mp + 2) / 5 + 1
  let m := if mp < 10 then mp + 3 else mp - 9
  (if m ≤ 2 then y + 1 else y, m, d)

/-- Model of `Date.prototype.toISOString` at epoch-millisecond `ms`:
`YYYY-MM-DDTHH:MM:SS.sssZ` in UTC. -/
def toISOString (ms : Nat) : String :=
  let secs := ms / 1000
  let c := civilFromDays (secs / 86400)
  let sod := secs % 86400
  String.mk
    (pad4 c.1 ++ '-' :: pad2 c.2.1 ++ '-' :: pad2 c.2.2 ++
     'T' :: pad2 (sod / 3600) ++ ':' :: pad2 (sod % 3600 / 60) ++
     ':' :: pad2 (sod % 60) ++ '.' :: pad3 (ms % 1000) ++ ['Z'])

/-- Model of JS `String.prototype.slice(start, stop)` on ASCII strings. -/
def jsSlice (start stop : Nat) (s : String) : String :=
  String.mk ((s.data.take stop).drop start)

/-- First-occurrence character replacement, the semantics of JS
`String.prototype.replace` with a single-character pattern. -/
def replaceFirstChar (c r : Char) : List Char → List Char
  | [] => []
  | x :: xs => if x = c then r :: xs else x :: replaceFirstChar c r xs

/-- Model of JS `s.replace('T', ' ')`-style single-character replace. -/
def jsReplaceChar (c r : Char) (s : String) : String :=
  String.mk (replaceFirstChar c r s.data)

/-- `formatDate` (src/helpers).  The source ignores its `date` argument and
renders `new Date()` — the ambient clock, here the explicit `nowMs` — via
`toISOString().slice(0, 19).replace('T', ' ')`. -/
def formatDate (date : Nat) (nowMs : Nat) : String :=
  let _ := date
  jsReplaceChar 'T' ' ' (jsSlice 0 19 (toISOString nowMs))

/-- Checks the shape `YYYY-MM-DD HH:MM:SS`: 19 chars, digits in the date
and time positions, separators `-`, space and `:` where required. -/
def isTimestampFormat (s : String) : Bool :=
  match s.data with
  | [y1, y2, y3, y4, h1, mo1, mo2, h2, d1, d2, sp,
     hh1, hh2, c1, mi1, mi2, c2, s1, s2] =>
    y1.isDigit && y2.isDigit && y3.isDigit && y4.isDigit && h1 = '-' &&
    mo1.isDigit && mo2.isDigit && h2 = '-' && d1.isDigit && d2.isDigit &&
    sp = ' ' && hh1.isDigit && hh2.isDigit && c1 = ':' &&
    mi1.isDigit && mi2.isDigit && c2 = ':' && s1.isDigit && s2.isDigit
  | _ => false

/-! ## The RDS Data Service interface (src/db/index.ts)

Each writer builds an `ExecuteStatementRequest` (or a batch request) and
awaits the store.  A parameter value is a tagged blob / double / string
as in the source; `Buffer.from(s, 'hex')` is recorded as `blobFromHex s`. -/

/-- A parameter value in an RDS statement, as built by src/db/index.ts. -/
inductive SqlValue where
  | blobFromHex (hex : String)
  | doubleValue (q : Rat)
  | stringValue (s : String)
  | stringOrNull (value : Option String) (isNull : Bool)
deriving Repr, DecidableEq

/-- One named parameter of an RDS statement. -/
structure SqlParam where
  name : String
  value : SqlValue
deriving Repr, DecidableEq

/-- The request fields shared by single and batch statements (the env-derived
`database` / `secretArn` / `resourceArn`, the caller's transaction token and
the SQL template). -/
structure StatementRequest where
  database : String
  secretArn : String
  resourceArn : String
  transactionId : String
  sql : String
deriving Repr, DecidableEq

/-- One call issued to the external store: `RDS.executeStatement` or
`RDS.batchExecuteStatement`. -/
inductive StoreCall where
  | executeStatement (req : StatementRequest) (parameters : List SqlParam)
  | batchExecuteStatement (req : StatementRequest)
      (parameterSets : List (List SqlParam))
deriving Repr, DecidableEq

/-- All parameter names appearing anywhere in a store call. -/
def paramNames : StoreCall → List String
  | .executeStatement _ ps => ps.map SqlParam.name
  | .batchExecuteStatement _ sets => (sets.map (·.map SqlParam.name)).flatten

/-- The value of the parameter called `n` in a single-statement call
(`none` for a batch call or an absent name). -/
def findParam (c : StoreCall) (n : String) : Option SqlValue :=
  match c with
  | .executeStatement _ ps => (ps.find? fun p => p.name = n).map SqlParam.value
  | .batchExecuteStatement _ _ => none

/-- The ambient collaborators of one invocation, made explicit:
`gen n` is the string returned by the (n+1)-th `genId(32)` call,
`envVar` the environment (out of scope per the spec, assumed set),
`storeFail n` the store's response to its (n+1)-th call (`some e` = the
call raises the store error `e`), and `nowMs` the wall clock in epoch
milliseconds at write time. -/
structure Env where
  gen : Nat → String
  envVar : String → String
  storeFail : Nat → Option String
  nowMs : Nat

/-- Mutable facts accumulated during one invocation: how many ids have been
generated and the trace of store calls issued so far. -/
structure St where
  nextGen : Nat
  calls : List StoreCall
deriving Repr, DecidableEq

/-- Errors an operation can reject with: a zod `ValidationError` carrying the
aggregated issue list, or the store's own error propagated unchanged. -/
inductive Err where
  | validationError (issues : List Violation)
  | storeError (msg : String)
deriving Repr, DecidableEq

/-- `genId(32)` (src/helpers): consumes the next value of the id stream. -/
def genIdCall (env : Env) (st : St) : String × St :=
  (env.gen st.nextGen, { st with nextGen := st.nextGen + 1 })

/-- Issue one call against the store: the call is recorded in the trace,
then the store either succeeds or raises its error, which the writer
propagates unchanged. -/
def runStore (env : Env) (st : St) (call : StoreCall) : Except Err Unit × St :=
  let st' : St := { st with calls := st.calls ++ [call] }
  match env.storeFail st.calls.length with
  | some e => (.error (.storeError e), st')
  | none => (.ok (), st')

/-- The request header every writer builds from `getEnvVariable` and the
caller's `sqlTransactionId`; the SQL text is the source's placeholder. -/
def mkStatementRequest (env : Env) (sqlTransactionId : String) : StatementRequest :=
  { database := env.envVar "DATABASE"
    secretArn := env.envVar "SECRET_ARN"
    resourceArn := env.envVar "CLUSTER_ARN"
    transactionId := sqlTransactionId
    sql := "INSERT ..." }

/-! ## The five writer operations (src/db/index.ts) -/

/-- `insertPayment` (src/db/index.ts): validates, generates the payment id,
issues one statement whose `paymentStatus` is `COMPLETE` when
`paymentMethod !== FedNow || amount === 0` (else `PENDING`) and whose
`datePaid` carries `formatDate(new Date())` unless the payment is a
positive-amount FedNow payment, in which case it is explicitly null. -/
def insertPayment (env : Env) (st : St) (p : InsertPaymentParams) :
    Except Err String × St :=
  match InsertPaymentParamsSchema p with
  | e :: es => (.error (.validationError (e :: es)), st)
  | [] =>
    let (paymentId, st1) := genIdCall env st
    let call : StoreCall :=
      .executeStatement (mkStatementRequest env p.sqlTransactionId)
        [ ⟨"paymentId", .blobFromHex paymentId⟩,
          ⟨"payerId", .blobFromHex p.payerId⟩,
          ⟨"payeeId", .blobFromHex p.payeeId⟩,
          ⟨"developerId", .blobFromHex p.developerId⟩,
          ⟨"paymentAmount", .doubleValue p.amount⟩,
          ⟨"interactionTypeId", .doubleValue p.interactionTypeId⟩,
          ⟨"paymentMethod", .doubleValue p.paymentMethod⟩,
          ⟨"paymentStatus", .doubleValue
            (if p.paymentMethod ≠ PaymentMethodFedNow ∨ p.amount = 0
             then PaymentStatusCOMPLETE else PaymentStatusPENDING)⟩,
          ⟨"datePaid", .stringOrNull
            (if p.paymentMethod = PaymentMethodFedNow ∧ 0 < p.amount
             then none else some (formatDate env.nowMs env.nowMs))
            (decide (p.paymentMethod = PaymentMethodFedNow ∧ 0 < p.amount))⟩ ]
    match runStore env st1 call with
    | (.ok _, st2) => (.ok paymentId, st2)
    | (.error e, st2) => (.error e, st2)

/-- `insertFedNowPayment` (src/db/index.ts). -/
def insertFedNowPayment (env : Env) (st : St) (p : InsertFedNowPaymentParams) :
    Except Err String × St :=
  match InsertFedNowPaymentParamsSchema p with
  | e :: es => (.error (.validationError (e :: es)), st)
  | [] =>
    let (fedNowPaymentId, st1) := genIdCall env st
    let call : StoreCall :=
      .executeStatement (mkStatementRequest env p.sqlTransactionId)
        [ ⟨"fedNowPaymentId", .blobFromHex fedNowPaymentId⟩,
          ⟨"paymentId", .blobFromHex p.paymentId⟩,
          ⟨"payerAccountId", .stringValue p.payerAccountId⟩,
          ⟨"payeeAccountId", .stringValue p.payeeAccountId⟩ ]
    match runStore env st1 call with
    | (.ok _, st2) => (.ok fedNowPaymentId, st2)
    | (.error e, st2) => (.error e, st2)

/-- `insertLedgerEntry` (src/db/index.ts). -/
def insertLedgerEntry (env : Env) (st : St) (p : InsertLedgerEntryParams) :
    Except Err String × St :=
  match InsertLedgerEntryParamsSchema p with
  | e :: es => (.error (.validationError (e :: es)), st)
  | [] =>
    let (ledgerId, st1) := genIdCall env st
    let call : StoreCall :=
      .executeStatement (mkStatementRequest env p.sqlTransactionId)
        [ ⟨"ledgerId", .blobFromHex ledgerId⟩,
          ⟨"payerId", .blobFromHex p.payerId⟩,
          ⟨"payeeId", .blobFromHex p.payeeId⟩,
          ⟨"amount", .doubleValue p.amount⟩,
          ⟨"interactionTypeId", .doubleValue p.interactionTypeId⟩,
          ⟨"developerId", .blobFromHex p.developerId⟩ ]
    match runStore env st1 call with
    | (.ok _, st2) => (.ok ledgerId, st2)
    | (.error e, st2) => (.error e, st2)

/-- `insertPromotionLedgerEntry` (src/db/index.ts): the `payerId` parameter
of the statement is the `payerId` field of its own input. -/
def insertPromotionLedgerEntry (env : Env) (st : St)
    (p : InsertPromotionLedgerEntryParams) : Except Err String × St :=
  match InsertPromotionLedgerEntryParamsSchema p with
  | e :: es => (.error (.validationError (e :: es)), st)
  | [] =>
    let (ledgerId, st1) := genIdCall env st
    let call : StoreCall :=
      .executeStatement (mkStatementRequest env p.sqlTransactionId)
        [ ⟨"ledgerId", .blobFromHex ledgerId⟩,
          ⟨"payerId", .blobFromHex p.payerId⟩,
          ⟨"payeeId", .blobFromHex p.payeeId⟩,
          ⟨"developerId", .blobFromHex p.developerId⟩,
          ⟨"amount", .doubleValue p.promoAmount⟩,
          ⟨"interactionTypeId", .doubleValue p.interactionTypeId⟩ ]
    match runStore env st1 call with
    | (.ok _, st2) => (.ok ledgerId, st2)
    | (.error e, st2) => (.error e, st2)

/-- `insertTransactionRecord` (src/db/index.ts): one batch call with one
parameter set per ledger entry, each set carrying the new transaction id
and that ledger entry's id. -/
def insertTransactionRecord (env : Env) (st : St)
    (p : InsertTransactionRecordParams) : Except Err String × St :=
  match InsertTransactionRecordParamsSchema p with
  | e :: es => (.error (.validationError (e :: es)), st)
  | [] =>
    let (pursTransactionId, st1) := genIdCall env st
    let parameterSets := p.ledgerEntries.map fun ledgerEntry =>
      [ SqlParam.mk "transactionId" (.blobFromHex pursTransactionId),
        SqlParam.mk "ledgerId" (.blobFromHex ledgerEntry) ]
    let call : StoreCall :=
      .batchExecuteStatement (mkStatementRequest env p.sqlTransactionId)
        parameterSets
    match runStore env st1 call with
    | (.ok _, st2) => (.ok pursTransactionId, st2)
    | (.error e, st2) => (.error e, st2)

/-! ## The orchestrator (src/index.ts) -/

/-- `IdObject` (src/types/index.ts).  The three nullable fields use `none`
for TS `null`; the two optional fields use `none` for an absent key (they
are only ever assigned inside their guard). -/
structure IdObject where
  primaryPaymentID : Option String
  customerLedgerEntryID : Option String
  pursTransactionID : Option String
  primaryFedNowPaymentID : Option String := none
  promotionLedgerEntryID : Option String := none
deriving Repr, DecidableEq

/-- `executeStandardPTOperations` (src/index.ts): parse the bundle, insert
the payment, conditionally the FedNow payment, the primary ledger entry,
conditionally the promotion ledger entry, then the transaction record over
the accumulated ledger-entry ids, threading every generated id into the
returned `IdObject`.  Any rejection aborts the remaining sequence with
that error. -/
def executeStandardPTOperations (env : Env)
    (params : ExecuteStandardPTOperationsParams) : Except Err IdObject × St :=
  match ExecuteStandardPTOperationsParamsSchema params with
  | e :: es => (.error (.validationError (e :: es)), ⟨0, []⟩)
  | [] =>
    let u := params.userPurchaseInformation
    let promoAmount := params.promotionInformation.promoAmount
    let sqlTransactionId := params.sqlTransactionId
    let st0 : St := ⟨0, []⟩
    match insertPayment env st0
        { payerId := u.payerId, payeeId := u.payeeId,
          developerId := u.developerId, amount := u.amount,
          interactionTypeId := u.interactionTypeId,
          paymentMethod := u.paymentMethod,
          sqlTransactionId := sqlTransactionId } with
    | (.error e, st) => (.error e, st)
    | (.ok paymentId, st1) =>
      let fedStep : Except Err (Option String) × St :=
        match u.payerAccountId, u.payeeAccountId with
        | some payerAccountId, some payeeAccountId =>
          if u.paymentMethod = PaymentMethodFedNow ∧ 0 < u.amount then
            match insertFedNowPayment env st1
                { paymentId := paymentId, payerAccountId := payerAccountId,
                  payeeAccountId := payeeAccountId,
                  sqlTransactionId := sqlTransactionId } with
            | (.ok fedNowPaymentId, st) => (.ok (some fedNowPaymentId), st)
            | (.error e, st) => (.error e, st)
          else (.ok none, st1)
        | _, _ => (.ok none, st1)
      match fedStep with
      | (.error e, st) => (.error e, st)
      | (.ok fedNowId, st2) =>
        match insertLedgerEntry env st2
            { payerId := u.payerId, payeeId := u.payeeId,
              developerId := u.developerId, amount := u.amount,
              interactionTypeId := u.interactionTypeId,
              sqlTransactionId := sqlTransactionId } with
        | (.error e, st) => (.error e, st)
        | (.ok ledgerId, st3) =>
          let promoStep : Except Err (Option String) × St :=
            match promoAmount with
            | some promo =>
              if 0 < promo then
                match insertPromotionLedgerEntry env st3
                    { developerId := u.developerId, payerId := u.payerId,
                      payeeId := u.payeeId, promoAmount := promo,
                      interactionTypeId := u.interactionTypeId,
                      sqlTransactionId := sqlTransactionId } with
                | (.ok promotionLedgerId, st) => (.ok (some promotionLedgerId), st)
                | (.error e, st) => (.error e, st)
              else (.ok none, st3)
            | none => (.ok none, st3)
          match promoStep with
          | (.error e, st) => (.error e, st)
          | (.ok promoId, st4) =>
            let ledgerEntries := ledgerId :: promoId.toList
            match insertTransactionRecord env st4
                { ledgerEntries := ledgerEntries,
                  sqlTransactionId := sqlTransactionId } with
            | (.error e, st) => (.error e, st)
            | (.ok pursTransactionId, st5) =>
              (.ok { primaryPaymentID := some paymentId,
                     customerLedgerEntryID := some ledgerId,
                     pursTransactionID := some pursTransactionId,
                     primaryFedNowPaymentID := fedNowId,
                     promotionLedgerEntryID := promoId }, st5)

/-! ## Validity and the guard conditions -/

/-- The conditions under which the bundle-level zod parse succeeds, spelled
out field by field over the input's components. -/
structure ValidInput (u : UserPurchaseInformation) (pi : PromotionInformation)
    (tx : String) : Prop where
  payee_len : u.payeeId.length = 32
  payer_len : u.payerId.length = 32
  payerAcct_len : ∀ s, u.payerAccountId = some s → s.length = 32
  payeeAcct_len : ∀ s, u.payeeAccountId = some s → s.length = 32
  dev_len : u.developerId.length = 32
  amount_nonneg : 0 ≤ u.amount
  pm_enum : u.paymentMethod = PaymentMethodFedNow ∨
    u.paymentMethod = PaymentMethodCard
  promo_nonneg : ∀ q, pi.promoAmount = some q → 0 ≤ q
  tx_len : tx.length = 32

/-- The guard of step 3 (src/index.ts lines 67-72): FedNow method, positive
amount, both account ids non-null. -/
def FedNowGuard (u : UserPurchaseInformation) : Prop :=
  u.paymentMethod = PaymentMethodFedNow ∧ 0 < u.amount ∧
  u.payerAccountId ≠ none ∧ u.payeeAccountId ≠ none

/-- The guard of step 5 (src/index.ts line 95): promo amount non-null and
positive. -/
def PromoGuard (pi : PromotionInformation) : Prop :=
  ∃ q, pi.promoAmount = some q ∧ 0 < q

instance (u : UserPurchaseInformation) : Decidable (FedNowGuard u) := by
  unfold FedNowGuard; infer_instance

instance (pi : PromotionInformation) : Decidable (PromoGuard pi) := by
  unfold PromoGuard
  exact match pi.promoAmount with
    | none => .isFalse (by simp)
    | some q => if h : 0 < q then .isTrue ⟨q, rfl, h⟩ else .isFalse (by simp [h])

/-! ## The statements each writer issues, named for reuse in theorems -/

/-- The statement `insertPayment` issues once validation passed. -/
def paymentWriteCall (env : Env) (q : InsertPaymentParams)
    (paymentId : String) : StoreCall :=
  .executeStatement (mkStatementRequest env q.sqlTransactionId)
    [ ⟨"paymentId", .blobFromHex paymentId⟩,
      ⟨"payerId", .blobFromHex q.payerId⟩,
      ⟨"payeeId", .blobFromHex q.payeeId⟩,
      ⟨"developerId", .blobFromHex q.developerId⟩,
      ⟨"paymentAmount", .doubleValue q.amount⟩,
      ⟨"interactionTypeId", .doubleValue q.interactionTypeId⟩,
      ⟨"paymentMethod", .doubleValue q.paymentMethod⟩,
      ⟨"paymentStatus", .doubleValue
        (if q.paymentMethod ≠ PaymentMethodFedNow ∨ q.amount = 0
         then PaymentStatusCOMPLETE else PaymentStatusPENDING)⟩,
      ⟨"datePaid", .stringOrNull
        (if q.paymentMethod = PaymentMethodFedNow ∧ 0 < q.amount
         then none else some (formatDate env.nowMs env.nowMs))
        (decide (q.paymentMethod = PaymentMethodFedNow ∧ 0 < q.amount))⟩ ]

/-- The statement `insertFedNowPayment` issues once validation passed. -/
def fedNowWriteCall (env : Env) (q : InsertFedNowPaymentParams)
    (fedNowPaymentId : String) : StoreCall :=
  .executeStatement (mkStatementRequest env q.sqlTransactionId)
    [ ⟨"fedNowPaymentId", .blobFromHex fedNowPaymentId⟩,
      ⟨"paymentId", .blobFromHex q.paymentId⟩,
      ⟨"payerAccountId", .stringValue q.payerAccountId⟩,
      ⟨"payeeAccountId", .stringValue q.payeeAccountId⟩ ]

/-- The statement `insertLedgerEntry` issues once validation passed. -/
def ledgerWriteCall (env : Env) (q : InsertLedgerEntryParams)
    (ledgerId : String) : StoreCall :=
  .executeStatement (mkStatementRequest env q.sqlTransactionId)
    [ ⟨"ledgerId", .blobFromHex ledgerId⟩,
      ⟨"payerId", .blobFromHex q.payerId⟩,
      ⟨"payeeId", .blobFromHex q.payeeId⟩,
      ⟨"amount", .doubleValue q.amount⟩,
      ⟨"interactionTypeId", .doubleValue q.interactionTypeId⟩,
      ⟨"developerId", .blobFromHex q.developerId⟩ ]

/-- The statement `insertPromotionLedgerEntry` issues once validation
passed. -/
def promoWriteCall (env : Env) (q : InsertPromotionLedgerEntryParams)
    (ledgerId : String) : StoreCall :=
  .executeStatement (mkStatementRequest env q.sqlTransactionId)
    [ ⟨"ledgerId", .blobFromHex ledgerId⟩,
      ⟨"payerId", .blobFromHex q.payerId⟩,
      ⟨"payeeId", .blobFromHex q.payeeId⟩,
      ⟨"developerId", .blobFromHex q.developerId⟩,
      ⟨"amount", .doubleValue q.promoAmount⟩,
      ⟨"interactionTypeId", .doubleValue q.interactionTypeId⟩ ]

/-- The batch statement `insertTransactionRecord` issues once validation
passed. -/
def txWriteCall (env : Env) (q : InsertTransactionRecordParams)
    (pursTransactionId : String) : StoreCall :=
  .batchExecuteStatement (mkStatementRequest env q.sqlTransactionId)
    (q.ledgerEntries.map fun ledgerEntry =>
      [ SqlParam.mk "transactionId" (.blobFromHex pursTransactionId),
        SqlParam.mk "ledgerId" (.blobFromHex ledgerEntry) ])

/-- A store call whose parameter names are exactly those of the
`insertPromotionLedgerEntry` statement, in its order (the primary
ledger-entry statement lists `developerId` last instead). -/
def isPromotionLedgerWrite (c : StoreCall) : Prop :=
  paramNames c =
    ["ledgerId", "payerId", "payeeId", "developerId", "amount",
     "interactionTypeId"]

instance (c : StoreCall) : Decidable (isPromotionLedgerWrite c) := by
  unfold isPromotionLedgerWrite
  infer_instance

/-! ## Concrete fixtures for witnesses and counterexamples -/

/-- A 32-character string of one repeated character. -/
def rep32 (c : Char) : String := String.mk (List.replicate 32 c)

/-- A concrete environment: the n-th generated id is 31 `'a'`s followed by
the digit of `n mod 10`, every store call succeeds, and the clock reads a
fixed epoch-millisecond instant. -/
def envW : Env :=
  { gen := fun n => String.mk (List.replicate 31 'a' ++ [Nat.digitChar (n % 10)])
    envVar := fun _ => "mock"
    storeFail := fun _ => none
    nowMs := 1705316096000 }

/-- The spec's example purchase: Card payment, no account ids. -/
def uCard : UserPurchaseInformation :=
  { payerId := rep32 'b', payeeId := rep32 'a', developerId := rep32 'c'
    amount := 100, interactionTypeId := 1
    paymentMethod := PaymentMethodCard
    payerAccountId := none, payeeAccountId := none }

/-- A FedNow purchase with both account ids present. -/
def uFed : UserPurchaseInformation :=
  { payerId := rep32 'b', payeeId := rep32 'a', developerId := rep32 'c'
    amount := 100, interactionTypeId := 1
    paymentMethod := PaymentMethodFedNow
    payerAccountId := some (rep32 'e'), payeeAccountId := some (rep32 'f') }

/-- A promotion of 10. -/
def piPromo : PromotionInformation := ⟨some 10⟩

/-- No promotion. -/
def piNone : PromotionInformation := ⟨none⟩

/-- The scope token of the spec's example. -/
def txW : String := rep32 'd'

/-- `true` iff every character of the string is a lowercase hexadecimal
digit. -/
def isLowerHexString (s : String) : Bool :=
  s.data.all fun c => c.isDigit || ('a' ≤ c && c ≤ 'f')

/-- The spec's example purchase with a payerId of 32 `'z'`s — correct
length, but not hexadecimal. -/
def uNonHex : UserPurchaseInformation :=
  { payerId := rep32 'z', payeeId := rep32 'a', developerId := rep32 'c'
    amount := 100, interactionTypeId := 1
    paymentMethod := PaymentMethodCard
    payerAccountId := none, payeeAccountId := none }

/-- The spec's example payment input for the writer level. -/
def qPayW : InsertPaymentParams :=
  { payerId := rep32 'b', payeeId := rep32 'a', developerId := rep32 'c'
    amount := 100, interactionTypeId := 1
    paymentMethod := PaymentMethodCard, sqlTransactionId := txW }

/-- A bundle input with two invalid fields: a 7-character payerId and a
negative amount. -/
def pBad : ExecuteStandardPTOperationsParams :=
  ⟨{ payerId := "invalid", payeeId := rep32 'a', developerId := rep32 'c'
     amount := -5, interactionTypeId := 1
     paymentMethod := PaymentMethodCard
     payerAccountId := none, payeeAccountId := none }, piNone, txW⟩

/-- The purchase input of `pBad`, with only the payerId invalid. -/
def uBadLen : UserPurchaseInformation :=
  { payerId := "invalid", payeeId := rep32 'a', developerId := rep32 'c'
    amount := 100, interactionTypeId := 1
    paymentMethod := PaymentMethodCard
    payerAccountId := none, payeeAccountId := none }

/-- `envW` with the store failing on its second call. -/
def envFail1 : Env :=
  { envW with storeFail :=
      fun n => if n = 1 then some "Database operation failed" else none }

/-- An otherwise-valid ledger-entry input with a negative amount. -/
def qLedgerNeg : InsertLedgerEntryParams :=
  { payerId := rep32 'b', payeeId := rep32 'a', developerId := rep32 'c'
    amount := -1, interactionTypeId := 1, sqlTransactionId := txW }

theorem digitChar_mod_isDigit (n : Nat) :
    (Nat.digitChar (n % 10)).isDigit = true := by
  have h : ∀ m, m < 10 → (Nat.digitChar m).isDigit = true := by decide
  exact h _ (Nat.mod_lt _ (by norm_num))

theorem digitChar_mod_ne_T (n : Nat) : Nat.digitChar (n % 10) ≠ 'T' := by
  have h : ∀ m, m < 10 → Nat.digitChar m ≠ 'T' := by decide
  exact h _ (Nat.mod_lt _ (by norm_num))

/-- `formatDate` rendered out: the 19 date-time characters of the UTC ISO
string with the `T` separator replaced by a space. -/
theorem formatDate_eq (d now : Nat) :
    formatDate d now = String.mk
      (pad4 (civilFromDays (now / 1000 / 86400)).1 ++
       '-' :: pad2 (civilFromDays (now / 1000 / 86400)).2.1 ++
       '-' :: pad2 (civilFromDays (now / 1000 / 86400)).2.2 ++
       ' ' :: pad2 (now / 1000 % 86400 / 3600) ++
       ':' :: pad2 (now / 1000 % 86400 % 3600 / 60) ++
       ':' :: pad2 (now / 1000 % 86400 % 60)) := by
  unfold formatDate jsReplaceChar jsSlice toISOString
  simp [pad4, pad3, pad2, List.take, replaceFirstChar, digitChar_mod_ne_T]

/-- Whatever the clock reads, `formatDate`'s output has the shape
`YYYY-MM-DD HH:MM:SS`. -/
theorem isTimestampFormat_formatDate (d now : Nat) :
    isTimestampFormat (formatDate d now) = true := by
  rw [formatDate_eq]
  simp [pad4, pad3, pad2, isTimestampFormat, digitChar_mod_isDigit]

/-! ## Elementary lemmas about the checks -/

theorem checkLen32_eq_nil {path : List String} {s : String}
    (h : s.length = 32) : checkLen32 path s = [] := by
  simp [checkLen32, h]

theorem checkNonneg_eq_nil {path : List String} {q : Rat}
    (h : 0 ≤ q) : checkNonneg path q = [] := by
  simp [checkNonneg, not_lt.mpr h]

theorem checkPaymentMethodEnum_eq_nil {path : List String} {q : Rat}
    (h : q = PaymentMethodFedNow ∨ q = PaymentMethodCard) :
    checkPaymentMethodEnum path q = [] := by
  simp [checkPaymentMethodEnum, h]

theorem checkOpt_eq_nil {α : Type} {check : List String → α → List Violation}
    {path : List String} {o : Option α}
    (h : ∀ x, o = some x → check path x = []) : checkOpt check path o = [] := by
  cases ho : o with
  | none => simp [checkOpt]
  | some x => simp [checkOpt, h x ho]

/-- A valid bundle passes the bundle-level zod parse with no issues. -/
theorem bundleSchema_eq_nil {u : UserPurchaseInformation}
    {pi : PromotionInformation} {tx : String} (hv : ValidInput u pi tx) :
    ExecuteStandardPTOperationsParamsSchema ⟨u, pi, tx⟩ = [] := by
  rcases hv with ⟨h1, h2, h3, h4, h5, h6, h7, h8, h9⟩
  simp [ExecuteStandardPTOperationsParamsSchema, UserPurchaseInformationSchema,
    PromotionInformationSchema, underKey, checkNumber,
    checkLen32_eq_nil h1, checkLen32_eq_nil h2, checkLen32_eq_nil h5,
    checkLen32_eq_nil h9, checkNonneg_eq_nil h6,
    checkPaymentMethodEnum_eq_nil h7,
    checkOpt_eq_nil (fun s hs => checkLen32_eq_nil (h3 s hs)),
    checkOpt_eq_nil (fun s hs => checkLen32_eq_nil (h4 s hs)),
    checkOpt_eq_nil (fun q hq => checkNonneg_eq_nil (h8 q hq))]

/-! ## Writer behaviour lemmas -/

theorem insertPayment_ok (env : Env) (st : St) (q : InsertPaymentParams)
    (h : InsertPaymentParamsSchema q = [])
    (hf : env.storeFail st.calls.length = none) :
    insertPayment env st q =
      (.ok (env.gen st.nextGen),
       ⟨st.nextGen + 1,
        st.calls ++ [paymentWriteCall env q (env.gen st.nextGen)]⟩) := by
  unfold insertPayment
  rw [h]
  simp [genIdCall, runStore, hf, paymentWriteCall]

theorem insertPayment_storeErr (env : Env) (st : St) (q : InsertPaymentParams)
    {e : String} (h : InsertPaymentParamsSchema q = [])
    (hf : env.storeFail st.calls.length = some e) :
    insertPayment env st q =
      (.error (.storeError e),
       ⟨st.nextGen + 1,
        st.calls ++ [paymentWriteCall env q (env.gen st.nextGen)]⟩) := by
  unfold insertPayment
  rw [h]
  simp [genIdCall, runStore, hf, paymentWriteCall]

theorem insertFedNowPayment_ok (env : Env) (st : St)
    (q : InsertFedNowPaymentParams)
    (h : InsertFedNowPaymentParamsSchema q = [])
    (hf : env.storeFail st.calls.length = none) :
    insertFedNowPayment env st q =
      (.ok (env.gen st.nextGen),
       ⟨st.nextGen + 1,
        st.calls ++ [fedNowWriteCall env q (env.gen st.nextGen)]⟩) := by
  unfold insertFedNowPayment
  rw [h]
  simp [genIdCall, runStore, hf, fedNowWriteCall]

theorem insertFedNowPayment_storeErr (env : Env) (st : St)
    (q : InsertFedNowPaymentParams) {e : String}
    (h : InsertFedNowPaymentParamsSchema q = [])
    (hf : env.storeFail st.calls.length = some e) :
    insertFedNowPayment env st q =
      (.error (.storeError e),
       ⟨st.nextGen + 1,
        st.calls ++ [fedNowWriteCall env q (env.gen st.nextGen)]⟩) := by
  unfold insertFedNowPayment
  rw [h]
  simp [genIdCall, runStore, hf, fedNowWriteCall]

theorem insertLedgerEntry_ok (env : Env) (st : St) (q : InsertLedgerEntryParams)
    (h : InsertLedgerEntryParamsSchema q = [])
    (hf : env.storeFail st.calls.length = none) :
    insertLedgerEntry env st q =
      (.ok (env.gen st.nextGen),
       ⟨st.nextGen + 1,
        st.calls ++ [ledgerWriteCall env q (env.gen st.nextGen)]⟩) := by
  unfold insertLedgerEntry
  rw [h]
  simp [genIdCall, runStore, hf, ledgerWriteCall]

theorem insertLedgerEntry_storeErr (env : Env) (st : St)
    (q : InsertLedgerEntryParams) {e : String}
    (h : InsertLedgerEntryParamsSchema q = [])
    (hf : env.storeFail st.calls.length = some e) :
    insertLedgerEntry env st q =
      (.error (.storeError e),
       ⟨st.nextGen + 1,
        st.calls ++ [ledgerWriteCall env q (env.gen st.nextGen)]⟩) := by
  unfold insertLedgerEntry
  rw [h]
  simp [genIdCall, runStore, hf, ledgerWriteCall]

theorem insertLedgerEntry_invalid (env : Env) (st : St)
    (q : InsertLedgerEntryParams) {e : Violation} {es : List Violation}
    (h : InsertLedgerEntryParamsSchema q = e :: es) :
    insertLedgerEntry env st q = (.error (.validationError (e :: es)), st) := by
  unfold insertLedgerEntry
  rw [h]

theorem insertPromotionLedgerEntry_ok (env : Env) (st : St)
    (q : InsertPromotionLedgerEntryParams)
    (h : InsertPromotionLedgerEntryParamsSchema q = [])
    (hf : env.storeFail st.calls.length = none) :
    insertPromotionLedgerEntry env st q =
      (.ok (env.gen st.nextGen),
       ⟨st.nextGen + 1,
        st.calls ++ [promoWriteCall env q (env.gen st.nextGen)]⟩) := by
  unfold insertPromotionLedgerEntry
  rw [h]
  simp [genIdCall, runStore, hf, promoWriteCall]

theorem insertPromotionLedgerEntry_storeErr (env : Env) (st : St)
    (q : InsertPromotionLedgerEntryParams) {e : String}
    (h : InsertPromotionLedgerEntryParamsSchema q = [])
    (hf : env.storeFail st.calls.length = some e) :
    insertPromotionLedgerEntry env st q =
      (.error (.storeError e),
       ⟨st.nextGen + 1,
        st.calls ++ [promoWriteCall env q (env.gen st.nextGen)]⟩) := by
  unfold insertPromotionLedgerEntry
  rw [h]
  simp [genIdCall, runStore, hf, promoWriteCall]

theorem insertTransactionRecord_ok (env : Env) (st : St)
    (q : InsertTransactionRecordParams)
    (h : InsertTransactionRecordParamsSchema q = [])
    (hf : env.storeFail st.calls.length = none) :
    insertTransactionRecord env st q =
      (.ok (env.gen st.nextGen),
       ⟨st.nextGen + 1,
        st.calls ++ [txWriteCall env q (env.gen st.nextGen)]⟩) := by
  unfold insertTransactionRecord
  rw [h]
  simp [genIdCall, runStore, hf, txWriteCall]

theorem insertTransactionRecord_storeErr (env : Env) (st : St)
    (q : InsertTransactionRecordParams) {e : String}
    (h : InsertTransactionRecordParamsSchema q = [])
    (hf : env.storeFail st.calls.length = some e) :
    insertTransactionRecord env st q =
      (.error (.storeError e),
       ⟨st.nextGen + 1,
        st.calls ++ [txWriteCall env q (env.gen st.nextGen)]⟩) := by
  unfold insertTransactionRecord
  rw [h]
  simp [genIdCall, runStore, hf, txWriteCall]

/-! ## The writers' parameter validation under a valid bundle input -/

theorem bundlePaymentSchema_eq_nil {u : UserPurchaseInformation}
    {pi : PromotionInformation} {tx : String} (hv : ValidInput u pi tx) :
    InsertPaymentParamsSchema
      ⟨u.payerId, u.payeeId, u.developerId, u.amount, u.interactionTypeId,
       u.paymentMethod, tx⟩ = [] := by
  simp [InsertPaymentParamsSchema, checkNumber,
    checkLen32_eq_nil hv.payer_len, checkLen32_eq_nil hv.payee_len,
    checkLen32_eq_nil hv.dev_len, checkNonneg_eq_nil hv.amount_nonneg,
    checkPaymentMethodEnum_eq_nil hv.pm_enum, checkLen32_eq_nil hv.tx_len]

theorem bundleLedgerSchema_eq_nil {u : UserPurchaseInformation}
    {pi : PromotionInformation} {tx : String} (hv : ValidInput u pi tx) :
    InsertLedgerEntryParamsSchema
      ⟨u.payerId, u.payeeId, u.developerId, u.amount, u.interactionTypeId,
       tx⟩ = [] := by
  simp [InsertLedgerEntryParamsSchema, checkNumber, checkString,
    checkLen32_eq_nil hv.payer_len, checkLen32_eq_nil hv.payee_len,
    checkLen32_eq_nil hv.dev_len]

theorem bundlePromoSchema_eq_nil {u : UserPurchaseInformation}
    {pi : PromotionInformation} {tx : String} {promo : Rat}
    (hv : ValidInput u pi tx) (hq : 0 ≤ promo) :
    InsertPromotionLedgerEntryParamsSchema
      ⟨u.developerId, u.payerId, u.payeeId, promo, u.interactionTypeId,
       tx⟩ = [] := by
  simp [InsertPromotionLedgerEntryParamsSchema, checkNumber,
    checkLen32_eq_nil hv.payer_len, checkLen32_eq_nil hv.payee_len,
    checkLen32_eq_nil hv.dev_len, checkNonneg_eq_nil hq,
    checkLen32_eq_nil hv.tx_len]

theorem bundleTxSchema_eq_nil {u : UserPurchaseInformation}
    {pi : PromotionInformation} {tx : String} (hv : ValidInput u pi tx)
    {l : String} {rest : List String} :
    InsertTransactionRecordParamsSchema ⟨l :: rest, tx⟩ = [] := by
  simp [InsertTransactionRecordParamsSchema, checkNonemptyArray,
    checkLen32_eq_nil hv.tx_len]

theorem bundleFedNowSchema_eq_nil {u : UserPurchaseInformation}
    {pi : PromotionInformation} {tx : String} {pid a b : String}
    (hv : ValidInput u pi tx) (hpid : pid.length = 32)
    (ha : u.payerAccountId = some a) (hb : u.payeeAccountId = some b) :
    InsertFedNowPaymentParamsSchema ⟨pid, a, b, tx⟩ = [] := by
  simp [InsertFedNowPaymentParamsSchema, checkLen32_eq_nil hpid,
    checkLen32_eq_nil (hv.payerAcct_len a ha),
    checkLen32_eq_nil (hv.payeeAcct_len b hb),
    checkLen32_eq_nil hv.tx_len]

/-! ## Writer lemmas specialised to an always-successful store, shaped for
conditional rewriting -/

theorem insertPayment_okAll (env : Env)
    (hall : ∀ n, env.storeFail n = none) (st : St) (q : InsertPaymentParams)
    (h : InsertPaymentParamsSchema q = []) :
    insertPayment env st q =
      (.ok (env.gen st.nextGen),
       ⟨st.nextGen + 1,
        st.calls ++ [paymentWriteCall env q (env.gen st.nextGen)]⟩) :=
  insertPayment_ok env st q h (hall _)

theorem insertFedNowPayment_okAll (env : Env)
    (hall : ∀ n, env.storeFail n = none) (st : St)
    (q : InsertFedNowPaymentParams)
    (h : InsertFedNowPaymentParamsSchema q = []) :
    insertFedNowPayment env st q =
      (.ok (env.gen st.nextGen),
       ⟨st.nextGen + 1,
        st.calls ++ [fedNowWriteCall env q (env.gen st.nextGen)]⟩) :=
  insertFedNowPayment_ok env st q h (hall _)

theorem insertLedgerEntry_okAll (env : Env)
    (hall : ∀ n, env.storeFail n = none) (st : St)
    (q : InsertLedgerEntryParams)
    (h : InsertLedgerEntryParamsSchema q = []) :
    insertLedgerEntry env st q =
      (.ok (env.gen st.nextGen),
       ⟨st.nextGen + 1,
        st.calls ++ [ledgerWriteCall env q (env.gen st.nextGen)]⟩) :=
  insertLedgerEntry_ok env st q h (hall _)

theorem insertPromotionLedgerEntry_okAll (env : Env)
    (hall : ∀ n, env.storeFail n = none) (st : St)
    (q : InsertPromotionLedgerEntryParams)
    (h : InsertPromotionLedgerEntryParamsSchema q = []) :
    insertPromotionLedgerEntry env st q =
      (.ok (env.gen st.nextGen),
       ⟨st.nextGen + 1,
        st.calls ++ [promoWriteCall env q (env.gen st.nextGen)]⟩) :=
  insertPromotionLedgerEntry_ok env st q h (hall _)

theorem insertTransactionRecord_okAll (env : Env)
    (hall : ∀ n, env.storeFail n = none) (st : St)
    (q : InsertTransactionRecordParams)
    (h : InsertTransactionRecordParamsSchema q = []) :
    insertTransactionRecord env st q =
      (.ok (env.gen st.nextGen),
       ⟨st.nextGen + 1,
        st.calls ++ [txWriteCall env q (env.gen st.nextGen)]⟩) :=
  insertTransactionRecord_ok env st q h (hall _)

/-! ## Writer lemmas for a store that fails from its (k+1)-th call on,
shaped for conditional rewriting -/

theorem insertPayment_okLt (env : Env) (k : Nat)
    (hstore : ∀ i, i < k → env.storeFail i = none) (st : St)
    (q : InsertPaymentParams) (h : InsertPaymentParamsSchema q = [])
    (hlen : st.calls.length < k) :
    insertPayment env st q =
      (.ok (env.gen st.nextGen),
       ⟨st.nextGen + 1,
        st.calls ++ [paymentWriteCall env q (env.gen st.nextGen)]⟩) :=
  insertPayment_ok env st q h (hstore _ hlen)

theorem insertPayment_errAt (env : Env) (k : Nat) (e : String)
    (hk : env.storeFail k = some e) (st : St) (q : InsertPaymentParams)
    (h : InsertPaymentParamsSchema q = []) (hlen : st.calls.length = k) :
    insertPayment env st q =
      (.error (.storeError e),
       ⟨st.nextGen + 1,
        st.calls ++ [paymentWriteCall env q (env.gen st.nextGen)]⟩) :=
  insertPayment_storeErr env st q h (by rw [hlen]; exact hk)

theorem insertFedNowPayment_okLt (env : Env) (k : Nat)
    (hstore : ∀ i, i < k → env.storeFail i = none) (st : St)
    (q : InsertFedNowPaymentParams)
    (h : InsertFedNowPaymentParamsSchema q = [])
    (hlen : st.calls.length < k) :
    insertFedNowPayment env st q =
      (.ok (env.gen st.nextGen),
       ⟨st.nextGen + 1,
        st.calls ++ [fedNowWriteCall env q (env.gen st.nextGen)]⟩) :=
  insertFedNowPayment_ok env st q h (hstore _ hlen)

theorem insertFedNowPayment_errAt (env : Env) (k : Nat) (e : String)
    (hk : env.storeFail k = some e) (st : St)
    (q : InsertFedNowPaymentParams)
    (h : InsertFedNowPaymentParamsSchema q = [])
    (hlen : st.calls.length = k) :
    insertFedNowPayment env st q =
      (.error (.storeError e),
       ⟨st.nextGen + 1,
        st.calls ++ [fedNowWriteCall env q (env.gen st.nextGen)]⟩) :=
  insertFedNowPayment_storeErr env st q h (by rw [hlen]; exact hk)

theorem insertLedgerEntry_okLt (env : Env) (k : Nat)
    (hstore : ∀ i, i < k → env.storeFail i = none) (st : St)
    (q : InsertLedgerEntryParams)
    (h : InsertLedgerEntryParamsSchema q = [])
    (hlen : st.calls.length < k) :
    insertLedgerEntry env st q =
      (.ok (env.gen st.nextGen),
       ⟨st.nextGen + 1,
        st.calls ++ [ledgerWriteCall env q (env.gen st.nextGen)]⟩) :=
  insertLedgerEntry_ok env st q h (hstore _ hlen)

theorem insertLedgerEntry_errAt (env : Env) (k : Nat) (e : String)
    (hk : env.storeFail k = some e) (st : St)
    (q : InsertLedgerEntryParams)
    (h : InsertLedgerEntryParamsSchema q = [])
    (hlen : st.calls.length = k) :
    insertLedgerEntry env st q =
      (.error (.storeError e),
       ⟨st.nextGen + 1,
        st.calls ++ [ledgerWriteCall env q (env.gen st.nextGen)]⟩) :=
  insertLedgerEntry_storeErr env st q h (by rw [hlen]; exact hk)

theorem insertPromotionLedgerEntry_okLt (env : Env) (k : Nat)
    (hstore : ∀ i, i < k → env.storeFail i = none) (st : St)
    (q : InsertPromotionLedgerEntryParams)
    (h : InsertPromotionLedgerEntryParamsSchema q = [])
    (hlen : st.calls.length < k) :
    insertPromotionLedgerEntry env st q =
      (.ok (env.gen st.nextGen),
       ⟨st.nextGen + 1,
        st.calls ++ [promoWriteCall env q (env.gen st.nextGen)]⟩) :=
  insertPromotionLedgerEntry_ok env st q h (hstore _ hlen)

theorem insertPromotionLedgerEntry_errAt (env : Env) (k : Nat) (e : String)
    (hk : env.storeFail k = some e) (st : St)
    (q : InsertPromotionLedgerEntryParams)
    (h : InsertPromotionLedgerEntryParamsSchema q = [])
    (hlen : st.calls.length = k) :
    insertPromotionLedgerEntry env st q =
      (.error (.storeError e),
       ⟨st.nextGen + 1,
        st.calls ++ [promoWriteCall env q (env.gen st.nextGen)]⟩) :=
  insertPromotionLedgerEntry_storeErr env st q h (by rw [hlen]; exact hk)

theorem insertTransactionRecord_okLt (env : Env) (k : Nat)
    (hstore : ∀ i, i < k → env.storeFail i = none) (st : St)
    (q : InsertTransactionRecordParams)
    (h : InsertTransactionRecordParamsSchema q = [])
    (hlen : st.calls.length < k) :
    insertTransactionRecord env st q =
      (.ok (env.gen st.nextGen),
       ⟨st.nextGen + 1,
        st.calls ++ [txWriteCall env q (env.gen st.nextGen)]⟩) :=
  insertTransactionRecord_ok env st q h (hstore _ hlen)

theorem insertTransactionRecord_errAt (env : Env) (k : Nat) (e : String)
    (hk : env.storeFail k = some e) (st : St)
    (q : InsertTransactionRecordParams)
    (h : InsertTransactionRecordParamsSchema q = [])
    (hlen : st.calls.length = k) :
    insertTransactionRecord env st q =
      (.error (.storeError e),
       ⟨st.nextGen + 1,
        st.calls ++ [txWriteCall env q (env.gen st.nextGen)]⟩) :=
  insertTransactionRecord_storeErr env st q h (by rw [hlen]; exact hk)

/-! ## The four success scenarios of the orchestrator -/

/-- Valid input, store never fails, FedNow guard false, promotion guard
false: exactly Payment, LedgerEntry and TransactionRecord are written. -/
theorem run_ok_noFed_noPromo (env : Env) (u : UserPurchaseInformation)
    (pi : PromotionInformation) (tx : String) (hv : ValidInput u pi tx)
    (hstore : ∀ n, env.storeFail n = none)
    (hfed : ¬ FedNowGuard u) (hpromo : ¬ PromoGuard pi) :
    executeStandardPTOperations env ⟨u, pi, tx⟩ =
      (.ok ⟨some (env.gen 0), some (env.gen 1), some (env.gen 2), none, none⟩,
       ⟨3, [paymentWriteCall env ⟨u.payerId, u.payeeId, u.developerId,
              u.amount, u.interactionTypeId, u.paymentMethod, tx⟩ (env.gen 0),
            ledgerWriteCall env ⟨u.payerId, u.payeeId, u.developerId,
              u.amount, u.interactionTypeId, tx⟩ (env.gen 1),
            txWriteCall env ⟨[env.gen 1], tx⟩ (env.gen 2)]⟩) := by
  have hq0 : ∀ r, pi.promoAmount = some r → ¬ 0 < r :=
    fun r hr hlt => hpromo ⟨r, hr, hlt⟩
  rcases hpa : u.payerAccountId with _ | a <;>
    rcases hpb : u.payeeAccountId with _ | b <;>
    rcases hpq : pi.promoAmount with _ | q
  · simp [executeStandardPTOperations, bundleSchema_eq_nil hv, hpa, hpb, hpq,
      insertPayment_okAll env hstore, insertLedgerEntry_okAll env hstore,
      insertTransactionRecord_okAll env hstore,
      bundlePaymentSchema_eq_nil hv, bundleLedgerSchema_eq_nil hv,
      bundleTxSchema_eq_nil hv]
  · simp [executeStandardPTOperations, bundleSchema_eq_nil hv, hpa, hpb, hpq,
      if_neg (hq0 q hpq),
      insertPayment_okAll env hstore, insertLedgerEntry_okAll env hstore,
      insertTransactionRecord_okAll env hstore,
      bundlePaymentSchema_eq_nil hv, bundleLedgerSchema_eq_nil hv,
      bundleTxSchema_eq_nil hv]
  · simp [executeStandardPTOperations, bundleSchema_eq_nil hv, hpa, hpb, hpq,
      insertPayment_okAll env hstore, insertLedgerEntry_okAll env hstore,
      insertTransactionRecord_okAll env hstore,
      bundlePaymentSchema_eq_nil hv, bundleLedgerSchema_eq_nil hv,
      bundleTxSchema_eq_nil hv]
  · simp [executeStandardPTOperations, bundleSchema_eq_nil hv, hpa, hpb, hpq,
      if_neg (hq0 q hpq),
      insertPayment_okAll env hstore, insertLedgerEntry_okAll env hstore,
      insertTransactionRecord_okAll env hstore,
      bundlePaymentSchema_eq_nil hv, bundleLedgerSchema_eq_nil hv,
      bundleTxSchema_eq_nil hv]
  · simp [executeStandardPTOperations, bundleSchema_eq_nil hv, hpa, hpb, hpq,
      insertPayment_okAll env hstore, insertLedgerEntry_okAll env hstore,
      insertTransactionRecord_okAll env hstore,
      bundlePaymentSchema_eq_nil hv, bundleLedgerSchema_eq_nil hv,
      bundleTxSchema_eq_nil hv]
  · simp [executeStandardPTOperations, bundleSchema_eq_nil hv, hpa, hpb, hpq,
      if_neg (hq0 q hpq),
      insertPayment_okAll env hstore, insertLedgerEntry_okAll env hstore,
      insertTransactionRecord_okAll env hstore,
      bundlePaymentSchema_eq_nil hv, bundleLedgerSchema_eq_nil hv,
      bundleTxSchema_eq_nil hv]
  · have hno : ¬(u.paymentMethod = PaymentMethodFedNow ∧ 0 < u.amount) :=
      fun hand => hfed ⟨hand.1, hand.2, by simp [hpa], by simp [hpb]⟩
    simp [executeStandardPTOperations, bundleSchema_eq_nil hv, hpa, hpb, hpq,
      if_neg hno,
      insertPayment_okAll env hstore, insertLedgerEntry_okAll env hstore,
      insertTransactionRecord_okAll env hstore,
      bundlePaymentSchema_eq_nil hv, bundleLedgerSchema_eq_nil hv,
      bundleTxSchema_eq_nil hv]
  · have hno : ¬(u.paymentMethod = PaymentMethodFedNow ∧ 0 < u.amount) :=
      fun hand => hfed ⟨hand.1, hand.2, by simp [hpa], by simp [hpb]⟩
    simp [executeStandardPTOperations, bundleSchema_eq_nil hv, hpa, hpb, hpq,
      if_neg hno, if_neg (hq0 q hpq),
      insertPayment_okAll env hstore, insertLedgerEntry_okAll env hstore,
      insertTransactionRecord_okAll env hstore,
      bundlePaymentSchema_eq_nil hv, bundleLedgerSchema_eq_nil hv,
      bundleTxSchema_eq_nil hv]

/-- Valid input, store never fails, FedNow guard true, promotion guard
false: Payment, SettlementPayment, LedgerEntry, TransactionRecord. -/
theorem run_ok_fed_noPromo (env : Env) (u : UserPurchaseInformation)
    (pi : PromotionInformation) (tx : String) (a b : String)
    (hv : ValidInput u pi tx) (hgen : ∀ n, (env.gen n).length = 32)
    (hstore : ∀ n, env.storeFail n = none)
    (hpm : u.paymentMethod = PaymentMethodFedNow) (hamt : 0 < u.amount)
    (ha : u.payerAccountId = some a) (hb : u.payeeAccountId = some b)
    (hpromo : ¬ PromoGuard pi) :
    executeStandardPTOperations env ⟨u, pi, tx⟩ =
      (.ok ⟨some (env.gen 0), some (env.gen 2), some (env.gen 3),
            some (env.gen 1), none⟩,
       ⟨4, [paymentWriteCall env ⟨u.payerId, u.payeeId, u.developerId,
              u.amount, u.interactionTypeId, u.paymentMethod, tx⟩ (env.gen 0),
            fedNowWriteCall env ⟨env.gen 0, a, b, tx⟩ (env.gen 1),
            ledgerWriteCall env ⟨u.payerId, u.payeeId, u.developerId,
              u.amount, u.interactionTypeId, tx⟩ (env.gen 2),
            txWriteCall env ⟨[env.gen 2], tx⟩ (env.gen 3)]⟩) := by
  have hq0 : ∀ r, pi.promoAmount = some r → ¬ 0 < r :=
    fun r hr hlt => hpromo ⟨r, hr, hlt⟩
  have hand : u.paymentMethod = PaymentMethodFedNow ∧ 0 < u.amount :=
    ⟨hpm, hamt⟩
  rcases hpq : pi.promoAmount with _ | q
  · simp [executeStandardPTOperations, bundleSchema_eq_nil hv, ha, hb, hpq,
      if_pos hand,
      insertPayment_okAll env hstore, insertFedNowPayment_okAll env hstore,
      insertLedgerEntry_okAll env hstore,
      insertTransactionRecord_okAll env hstore,
      bundlePaymentSchema_eq_nil hv, bundleLedgerSchema_eq_nil hv,
      bundleTxSchema_eq_nil hv, bundleFedNowSchema_eq_nil hv (hgen 0) ha hb]
  · simp [executeStandardPTOperations, bundleSchema_eq_nil hv, ha, hb, hpq,
      if_pos hand, if_neg (hq0 q hpq),
      insertPayment_okAll env hstore, insertFedNowPayment_okAll env hstore,
      insertLedgerEntry_okAll env hstore,
      insertTransactionRecord_okAll env hstore,
      bundlePaymentSchema_eq_nil hv, bundleLedgerSchema_eq_nil hv,
      bundleTxSchema_eq_nil hv, bundleFedNowSchema_eq_nil hv (hgen 0) ha hb]

/-- Valid input, store never fails, FedNow guard true, promotion guard
true: all five records are written. -/
theorem run_ok_fed_promo (env : Env) (u : UserPurchaseInformation)
    (pi : PromotionInformation) (tx : String) (a b : String) (q : Rat)
    (hv : ValidInput u pi tx) (hgen : ∀ n, (env.gen n).length = 32)
    (hstore : ∀ n, env.storeFail n = none)
    (hpm : u.paymentMethod = PaymentMethodFedNow) (hamt : 0 < u.amount)
    (ha : u.payerAccountId = some a) (hb : u.payeeAccountId = some b)
    (hq : pi.promoAmount = some q) (hqpos : 0 < q) :
    executeStandardPTOperations env ⟨u, pi, tx⟩ =
      (.ok ⟨some (env.gen 0), some (env.gen 2), some (env.gen 4),
            some (env.gen 1), some (env.gen 3)⟩,
       ⟨5, [paymentWriteCall env ⟨u.payerId, u.payeeId, u.developerId,
              u.amount, u.interactionTypeId, u.paymentMethod, tx⟩ (env.gen 0),
            fedNowWriteCall env ⟨env.gen 0, a, b, tx⟩ (env.gen 1),
            ledgerWriteCall env ⟨u.payerId, u.payeeId, u.developerId,
              u.amount, u.interactionTypeId, tx⟩ (env.gen 2),
            promoWriteCall env ⟨u.developerId, u.payerId, u.payeeId, q,
              u.interactionTypeId, tx⟩ (env.gen 3),
            txWriteCall env ⟨[env.gen 2, env.gen 3], tx⟩ (env.gen 4)]⟩) := by
  have hand : u.paymentMethod = PaymentMethodFedNow ∧ 0 < u.amount :=
    ⟨hpm, hamt⟩
  simp [executeStandardPTOperations, bundleSchema_eq_nil hv, ha, hb, hq,
    if_pos hand, if_pos hqpos,
    insertPayment_okAll env hstore, insertFedNowPayment_okAll env hstore,
    insertLedgerEntry_okAll env hstore,
    insertPromotionLedgerEntry_okAll env hstore,
    insertTransactionRecord_okAll env hstore,
    bundlePaymentSchema_eq_nil hv, bundleLedgerSchema_eq_nil hv,
    bundleTxSchema_eq_nil hv, bundleFedNowSchema_eq_nil hv (hgen 0) ha hb,
    bundlePromoSchema_eq_nil hv (le_of_lt hqpos)]

/-- Valid input, store never fails, FedNow guard false, promotion guard
true: Payment, LedgerEntry, PromotionLedgerEntry, TransactionRecord. -/
theorem run_ok_noFed_promo (env : Env) (u : UserPurchaseInformation)
    (pi : PromotionInformation) (tx : String) (q : Rat)
    (hv : ValidInput u pi tx) (hstore : ∀ n, env.storeFail n = none)
    (hfed : ¬ FedNowGuard u)
    (hq : pi.promoAmount = some q) (hqpos : 0 < q) :
    executeStandardPTOperations env ⟨u, pi, tx⟩ =
      (.ok ⟨some (env.gen 0), some (env.gen 1), some (env.gen 3),
            none, some (env.gen 2)⟩,
       ⟨4, [paymentWriteCall env ⟨u.payerId, u.payeeId, u.developerId,
              u.amount, u.interactionTypeId, u.paymentMethod, tx⟩ (env.gen 0),
            ledgerWriteCall env ⟨u.payerId, u.payeeId, u.developerId,
              u.amount, u.interactionTypeId, tx⟩ (env.gen 1),
            promoWriteCall env ⟨u.developerId, u.payerId, u.payeeId, q,
              u.interactionTypeId, tx⟩ (env.gen 2),
            txWriteCall env ⟨[env.gen 1, env.gen 2], tx⟩ (env.gen 3)]⟩) := by
  rcases hpa : u.payerAccountId with _ | a <;>
    rcases hpb : u.payeeAccountId with _ | b
  · simp [executeStandardPTOperations, bundleSchema_eq_nil hv, hpa, hpb, hq,
      if_pos hqpos,
      insertPayment_okAll env hstore, insertLedgerEntry_okAll env hstore,
      insertPromotionLedgerEntry_okAll env hstore,
      insertTransactionRecord_okAll env hstore,
      bundlePaymentSchema_eq_nil hv, bundleLedgerSchema_eq_nil hv,
      bundleTxSchema_eq_nil hv, bundlePromoSchema_eq_nil hv (le_of_lt hqpos)]
  · simp [executeStandardPTOperations, bundleSchema_eq_nil hv, hpa, hpb, hq,
      if_pos hqpos,
      insertPayment_okAll env hstore, insertLedgerEntry_okAll env hstore,
      insertPromotionLedgerEntry_okAll env hstore,
      insertTransactionRecord_okAll env hstore,
      bundlePaymentSchema_eq_nil hv, bundleLedgerSchema_eq_nil hv,
      bundleTxSchema_eq_nil hv, bundlePromoSchema_eq_nil hv (le_of_lt hqpos)]
  · simp [executeStandardPTOperations, bundleSchema_eq_nil hv, hpa, hpb, hq,
      if_pos hqpos,
      insertPayment_okAll env hstore, insertLedgerEntry_okAll env hstore,
      insertPromotionLedgerEntry_okAll env hstore,
      insertTransactionRecord_okAll env hstore,
      bundlePaymentSchema_eq_nil hv, bundleLedgerSchema_eq_nil hv,
      bundleTxSchema_eq_nil hv, bundlePromoSchema_eq_nil hv (le_of_lt hqpos)]
  · have hno : ¬(u.paymentMethod = PaymentMethodFedNow ∧ 0 < u.amount) :=
      fun hand => hfed ⟨hand.1, hand.2, by simp [hpa], by simp [hpb]⟩
    simp [executeStandardPTOperations, bundleSchema_eq_nil hv, hpa, hpb, hq,
      if_neg hno, if_pos hqpos,
      insertPayment_okAll env hstore, insertLedgerEntry_okAll env hstore,
      insertPromotionLedgerEntry_okAll env hstore,
      insertTransactionRecord_okAll env hstore,
      bundlePaymentSchema_eq_nil hv, bundleLedgerSchema_eq_nil hv,
      bundleTxSchema_eq_nil hv, bundlePromoSchema_eq_nil hv (le_of_lt hqpos)]

/-! ## Further helper lemmas -/

/-- A payment input that passes `InsertPaymentParamsSchema` has a
non-negative amount. -/
theorem paymentSchema_amount_nonneg {q : InsertPaymentParams}
    (h : InsertPaymentParamsSchema q = []) : 0 ≤ q.amount := by
  by_contra hneg
  rw [not_le] at hneg
  simp [InsertPaymentParamsSchema, checkNonneg, if_pos hneg] at h

/-! ## Claim theorems -/

/-- C2: for every valid payment-insert input, the Payment write sets
`paymentStatus` to COMPLETE iff `paymentMethod != RealTimeSettlement` or
`amount == 0` (else PENDING), and the `datePaid` parameter carries a
non-null current-timestamp string of shape `YYYY-MM-DD HH:MM:SS` exactly
when the status is COMPLETE, and is explicitly null exactly when the
status is PENDING. -/
theorem claimC2_payment_status_datePaid (env : Env) (st : St)
    (q : InsertPaymentParams) (h : InsertPaymentParamsSchema q = []) :
    ∃ c : StoreCall, (insertPayment env st q).2.calls = st.calls ++ [c] ∧
      (findParam c "paymentStatus" =
          some (.doubleValue PaymentStatusCOMPLETE) ↔
        (q.paymentMethod ≠ PaymentMethodFedNow ∨ q.amount = 0)) ∧
      (findParam c "paymentStatus" =
          some (.doubleValue PaymentStatusPENDING) ↔
        ¬(q.paymentMethod ≠ PaymentMethodFedNow ∨ q.amount = 0)) ∧
      (findParam c "datePaid" =
          some (.stringOrNull (some (formatDate env.nowMs env.nowMs)) false) ↔
        (q.paymentMethod ≠ PaymentMethodFedNow ∨ q.amount = 0)) ∧
      (findParam c "datePaid" = some (.stringOrNull none true) ↔
        ¬(q.paymentMethod ≠ PaymentMethodFedNow ∨ q.amount = 0)) ∧
      isTimestampFormat (formatDate env.nowMs env.nowMs) = true := by
  have hnn : 0 ≤ q.amount := paymentSchema_amount_nonneg h
  have hdc : (q.paymentMethod = PaymentMethodFedNow ∧ 0 < q.amount) ↔
      ¬(q.paymentMethod ≠ PaymentMethodFedNow ∨ q.amount = 0) := by
    constructor
    · rintro ⟨h1, h2⟩ hcl
      rcases hcl with hne | h0
      · exact hne h1
      · exact h2.ne' h0
    · intro hncl
      push_neg at hncl
      exact ⟨hncl.1, lt_of_le_of_ne hnn (Ne.symm hncl.2)⟩
  refine ⟨paymentWriteCall env q (env.gen st.nextGen), ?_, ?_, ?_, ?_, ?_,
    isTimestampFormat_formatDate _ _⟩
  · rcases hsf : env.storeFail st.calls.length with _ | e
    · rw [insertPayment_ok env st q h hsf]
    · rw [insertPayment_storeErr env st q h hsf]
  · by_cases hcl : q.paymentMethod ≠ PaymentMethodFedNow ∨ q.amount = 0
    · simp [findParam, paymentWriteCall, List.find?, hcl]
    · simp [findParam, paymentWriteCall, List.find?, hcl,
        PaymentStatusCOMPLETE, PaymentStatusPENDING]
  · by_cases hcl : q.paymentMethod ≠ PaymentMethodFedNow ∨ q.amount = 0
    · simp [findParam, paymentWriteCall, List.find?, hcl,
        PaymentStatusCOMPLETE, PaymentStatusPENDING]
    · simp [findParam, paymentWriteCall, List.find?, hcl]
  · by_cases hcl : q.paymentMethod ≠ PaymentMethodFedNow ∨ q.amount = 0
    · have hdf : ¬(q.paymentMethod = PaymentMethodFedNow ∧ 0 < q.amount) :=
        fun hd => hdc.mp hd hcl
      simp [findParam, paymentWriteCall, List.find?, hcl, hdf]
    · have hdt : q.paymentMethod = PaymentMethodFedNow ∧ 0 < q.amount :=
        hdc.mpr hcl
      simp [findParam, paymentWriteCall, List.find?, hcl, hdt, hdt.2.ne']
  · by_cases hcl : q.paymentMethod ≠ PaymentMethodFedNow ∨ q.amount = 0
    · have hdf : ¬(q.paymentMethod = PaymentMethodFedNow ∧ 0 < q.amount) :=
        fun hd => hdc.mp hd hcl
      simp [findParam, paymentWriteCall, List.find?, hcl, hdf]
    · have hdt : q.paymentMethod = PaymentMethodFedNow ∧ 0 < q.amount :=
        hdc.mpr hcl
      simp [findParam, paymentWriteCall, List.find?, hcl, hdt, hdt.2.ne']

/-- C5: a bundle input that fails bundle-level validation makes the
orchestrator fail with a `ValidationError` carrying the aggregated
violation list produced by the bundle schema (all fields, not only the
first), and the store receives zero calls: the parse runs before any
insert. -/
theorem claimC5_validation_aborts_before_writes (env : Env)
    (p : ExecuteStandardPTOperationsParams) (e : Violation)
    (es : List Violation)
    (h : ExecuteStandardPTOperationsParamsSchema p = e :: es) :
    executeStandardPTOperations env p =
      (.error (.validationError (e :: es)), ⟨0, []⟩) := by
  unfold executeStandardPTOperations
  rw [h]

/-- C10: `formatDate` ignores its `Date` argument entirely — its output is
the wall-clock instant (`new Date()`) rendered from its UTC ISO string —
so the `datePaid` parameter written for a COMPLETE payment is always the
write-time timestamp, whatever `Date` value was supplied. -/
theorem claimC10_formatDate_ignores_argument :
    (∀ d₁ d₂ now, formatDate d₁ now = formatDate d₂ now) ∧
    (∀ d now, formatDate d now =
      jsReplaceChar 'T' ' ' (jsSlice 0 19 (toISOString now))) ∧
    (∀ (env : Env) (st : St) (q : InsertPaymentParams),
      InsertPaymentParamsSchema q = [] →
      (q.paymentMethod ≠ PaymentMethodFedNow ∨ q.amount = 0) →
      ∃ c : StoreCall, (insertPayment env st q).2.calls = st.calls ++ [c] ∧
        findParam c "datePaid" =
          some (.stringOrNull (some (formatDate 0 env.nowMs)) false)) := by
  refine ⟨fun d₁ d₂ now => rfl, fun d now => rfl, ?_⟩
  intro env st q h hcl
  have hdf : ¬(q.paymentMethod = PaymentMethodFedNow ∧ 0 < q.amount) := by
    rintro ⟨h1, h2⟩
    rcases hcl with hne | h0
    · exact hne h1
    · exact h2.ne' h0
  refine ⟨paymentWriteCall env q (env.gen st.nextGen), ?_, ?_⟩
  · rcases hsf : env.storeFail st.calls.length with _ | e
    · rw [insertPayment_ok env st q h hsf]
    · rw [insertPayment_storeErr env st q h hsf]
  · simp [findParam, paymentWriteCall, List.find?, hdf]
    rfl

/-- C1: on a valid bundle input with a fault-free store, a SettlementPayment
(FedNow) statement is issued iff `paymentMethod == RealTimeSettlement`,
`amount > 0` and both account ids are present; any issued FedNow statement
carries as its `paymentId` parameter exactly the id returned by the Payment
write (the orchestrator's `primaryPaymentID`); when the guard fails, no call
of any kind carrying a `fedNowPaymentId` parameter is issued. -/
theorem claimC1_settlement_write_iff_guard (env : Env)
    (u : UserPurchaseInformation) (pi : PromotionInformation) (tx : String)
    (hv : ValidInput u pi tx) (hgen : ∀ n, (env.gen n).length = 32)
    (hstore : ∀ n, env.storeFail n = none) :
    ((∃ c ∈ (executeStandardPTOperations env ⟨u, pi, tx⟩).2.calls,
        "fedNowPaymentId" ∈ paramNames c) ↔ FedNowGuard u) ∧
    (∀ c ∈ (executeStandardPTOperations env ⟨u, pi, tx⟩).2.calls,
      "fedNowPaymentId" ∈ paramNames c →
      ∃ idObj pid,
        (executeStandardPTOperations env ⟨u, pi, tx⟩).1 = .ok idObj ∧
        idObj.primaryPaymentID = some pid ∧
        findParam c "paymentId" = some (.blobFromHex pid)) := by
  by_cases hfed : FedNowGuard u
  · obtain ⟨hpm, hamt, hpan, hpbn⟩ := hfed
    obtain ⟨a, ha⟩ := Option.ne_none_iff_exists'.mp hpan
    obtain ⟨b, hb⟩ := Option.ne_none_iff_exists'.mp hpbn
    by_cases hpromo : PromoGuard pi
    · obtain ⟨q, hq, hqpos⟩ := hpromo
      rw [run_ok_fed_promo env u pi tx a b q hv hgen hstore hpm hamt ha hb
        hq hqpos]
      constructor
      · constructor
        · intro _
          exact ⟨hpm, hamt, by simp [ha], by simp [hb]⟩
        · intro _
          refine ⟨fedNowWriteCall env ⟨env.gen 0, a, b, tx⟩ (env.gen 1),
            by simp, by simp [paramNames, fedNowWriteCall]⟩
      · intro c hc hmem
        refine ⟨_, env.gen 0, rfl, rfl, ?_⟩
        simp at hc
        rcases hc with h | h | h | h | h <;> subst h <;> revert hmem <;>
          simp [paramNames, paymentWriteCall, ledgerWriteCall,
            promoWriteCall, txWriteCall, fedNowWriteCall, findParam,
            List.find?]
    · rw [run_ok_fed_noPromo env u pi tx a b hv hgen hstore hpm hamt ha hb
        hpromo]
      constructor
      · constructor
        · intro _
          exact ⟨hpm, hamt, by simp [ha], by simp [hb]⟩
        · intro _
          refine ⟨fedNowWriteCall env ⟨env.gen 0, a, b, tx⟩ (env.gen 1),
            by simp, by simp [paramNames, fedNowWriteCall]⟩
      · intro c hc hmem
        refine ⟨_, env.gen 0, rfl, rfl, ?_⟩
        simp at hc
        rcases hc with h | h | h | h <;> subst h <;> revert hmem <;>
          simp [paramNames, paymentWriteCall, ledgerWriteCall,
            txWriteCall, fedNowWriteCall, findParam, List.find?]
  · by_cases hpromo : PromoGuard pi
    · obtain ⟨q, hq, hqpos⟩ := hpromo
      rw [run_ok_noFed_promo env u pi tx q hv hstore hfed hq hqpos]
      constructor
      · constructor
        · rintro ⟨c, hc, hmem⟩
          exfalso
          simp at hc
          rcases hc with h | h | h | h <;> subst h <;> revert hmem <;>
            simp [paramNames, paymentWriteCall, ledgerWriteCall,
              promoWriteCall, txWriteCall]
        · intro hfg
          exact absurd hfg hfed
      · intro c hc hmem
        exfalso
        simp at hc
        rcases hc with h | h | h | h <;> subst h <;> revert hmem <;>
          simp [paramNames, paymentWriteCall, ledgerWriteCall,
            promoWriteCall, txWriteCall]
    · rw [run_ok_noFed_noPromo env u pi tx hv hstore hfed hpromo]
      constructor
      · constructor
        · rintro ⟨c, hc, hmem⟩
          exfalso
          simp at hc
          rcases hc with h | h | h <;> subst h <;> revert hmem <;>
            simp [paramNames, paymentWriteCall, ledgerWriteCall, txWriteCall]
        · intro hfg
          exact absurd hfg hfed
      · intro c hc hmem
        exfalso
        simp at hc
        rcases hc with h | h | h <;> subst h <;> revert hmem <;>
          simp [paramNames, paymentWriteCall, ledgerWriteCall, txWriteCall]

/-- C7: every successful invocation returns a `ResultCorrelation` whose
`primaryPaymentID`, `customerLedgerEntryID` and `pursTransactionID` are
non-null and are exactly the ids returned by the Payment, primary
LedgerEntry and TransactionRecord writes (the first, the matching
ledger-entry, and the last call of the trace carry those very ids), while
`primaryFedNowPaymentID` / `promotionLedgerEntryID` are present iff their
conditional write ran. -/
theorem claimC7_result_correlation (env : Env)
    (u : UserPurchaseInformation) (pi : PromotionInformation) (tx : String)
    (hv : ValidInput u pi tx) (hgen : ∀ n, (env.gen n).length = 32)
    (hstore : ∀ n, env.storeFail n = none) :
    ∃ idObj, (executeStandardPTOperations env ⟨u, pi, tx⟩).1 = .ok idObj ∧
      ∃ pid lid tid,
        idObj.primaryPaymentID = some pid ∧
        idObj.customerLedgerEntryID = some lid ∧
        idObj.pursTransactionID = some tid ∧
        (executeStandardPTOperations env ⟨u, pi, tx⟩).2.calls.head? =
          some (paymentWriteCall env ⟨u.payerId, u.payeeId, u.developerId,
            u.amount, u.interactionTypeId, u.paymentMethod, tx⟩ pid) ∧
        ledgerWriteCall env ⟨u.payerId, u.payeeId, u.developerId, u.amount,
            u.interactionTypeId, tx⟩ lid ∈
          (executeStandardPTOperations env ⟨u, pi, tx⟩).2.calls ∧
        (∃ entries,
          (executeStandardPTOperations env ⟨u, pi, tx⟩).2.calls.getLast? =
            some (txWriteCall env ⟨entries, tx⟩ tid)) ∧
        (idObj.primaryFedNowPaymentID.isSome ↔ FedNowGuard u) ∧
        (idObj.promotionLedgerEntryID.isSome ↔ PromoGuard pi) := by
  by_cases hfed : FedNowGuard u
  · obtain ⟨hpm, hamt, hpan, hpbn⟩ := hfed
    obtain ⟨a, ha⟩ := Option.ne_none_iff_exists'.mp hpan
    obtain ⟨b, hb⟩ := Option.ne_none_iff_exists'.mp hpbn
    by_cases hpromo : PromoGuard pi
    · obtain ⟨q, hq, hqpos⟩ := hpromo
      rw [run_ok_fed_promo env u pi tx a b q hv hgen hstore hpm hamt ha hb
        hq hqpos]
      refine ⟨_, rfl, env.gen 0, env.gen 2, env.gen 4, rfl, rfl, rfl, rfl,
        by simp, ⟨[env.gen 2, env.gen 3], by simp⟩, ?_, ?_⟩
      · simp only [Option.isSome_some, true_iff]
        exact ⟨hpm, hamt, by simp [ha], by simp [hb]⟩
      · simp only [Option.isSome_some, true_iff]
        exact ⟨q, hq, hqpos⟩
    · rw [run_ok_fed_noPromo env u pi tx a b hv hgen hstore hpm hamt ha hb
        hpromo]
      refine ⟨_, rfl, env.gen 0, env.gen 2, env.gen 3, rfl, rfl, rfl, rfl,
        by simp, ⟨[env.gen 2], by simp⟩, ?_, ?_⟩
      · simp only [Option.isSome_some, true_iff]
        exact ⟨hpm, hamt, by simp [ha], by simp [hb]⟩
      · simpa using hpromo
  · by_cases hpromo : PromoGuard pi
    · obtain ⟨q, hq, hqpos⟩ := hpromo
      rw [run_ok_noFed_promo env u pi tx q hv hstore hfed hq hqpos]
      refine ⟨_, rfl, env.gen 0, env.gen 1, env.gen 3, rfl, rfl, rfl, rfl,
        by simp, ⟨[env.gen 1, env.gen 2], by simp⟩, ?_, ?_⟩
      · simpa using hfed
      · simp only [Option.isSome_some, true_iff]
        exact ⟨q, hq, hqpos⟩
    · rw [run_ok_noFed_noPromo env u pi tx hv hstore hfed hpromo]
      refine ⟨_, rfl, env.gen 0, env.gen 1, env.gen 2, rfl, rfl, rfl, rfl,
        by simp, ⟨[env.gen 1], by simp⟩, ?_, ?_⟩
      · simpa using hfed
      · simpa using hpromo

/-- C3: on a valid bundle input with a fault-free store, a
PromotionLedgerEntry statement is issued iff `promoAmount` is present and
positive, and the TransactionRecord batch (always the last call) has
exactly one parameter set per ledger entry in order — primary ledger id
then promotion ledger id when the promotion entry exists, the primary
ledger id alone otherwise — every set carrying the same generated
transaction-record id. -/
theorem claimC3_promo_iff_and_batch_sets (env : Env)
    (u : UserPurchaseInformation) (pi : PromotionInformation) (tx : String)
    (hv : ValidInput u pi tx) (hgen : ∀ n, (env.gen n).length = 32)
    (hstore : ∀ n, env.storeFail n = none) :
    ((∃ c ∈ (executeStandardPTOperations env ⟨u, pi, tx⟩).2.calls,
        isPromotionLedgerWrite c) ↔ PromoGuard pi) ∧
    (∃ tid lid,
      ledgerWriteCall env ⟨u.payerId, u.payeeId, u.developerId, u.amount,
          u.interactionTypeId, tx⟩ lid ∈
        (executeStandardPTOperations env ⟨u, pi, tx⟩).2.calls ∧
      (PromoGuard pi →
        ∃ q plid, pi.promoAmount = some q ∧
          promoWriteCall env ⟨u.developerId, u.payerId, u.payeeId, q,
              u.interactionTypeId, tx⟩ plid ∈
            (executeStandardPTOperations env ⟨u, pi, tx⟩).2.calls ∧
          (executeStandardPTOperations env ⟨u, pi, tx⟩).2.calls.getLast? =
            some (.batchExecuteStatement (mkStatementRequest env tx)
              [[⟨"transactionId", .blobFromHex tid⟩,
                ⟨"ledgerId", .blobFromHex lid⟩],
               [⟨"transactionId", .blobFromHex tid⟩,
                ⟨"ledgerId", .blobFromHex plid⟩]])) ∧
      (¬ PromoGuard pi →
        (executeStandardPTOperations env ⟨u, pi, tx⟩).2.calls.getLast? =
          some (.batchExecuteStatement (mkStatementRequest env tx)
            [[⟨"transactionId", .blobFromHex tid⟩,
              ⟨"ledgerId", .blobFromHex lid⟩]]))) := by
  by_cases hfed : FedNowGuard u
  · obtain ⟨hpm, hamt, hpan, hpbn⟩ := hfed
    obtain ⟨a, ha⟩ := Option.ne_none_iff_exists'.mp hpan
    obtain ⟨b, hb⟩ := Option.ne_none_iff_exists'.mp hpbn
    by_cases hpromo : PromoGuard pi
    · obtain ⟨q, hq, hqpos⟩ := hpromo
      rw [run_ok_fed_promo env u pi tx a b q hv hgen hstore hpm hamt ha hb
        hq hqpos]
      refine ⟨⟨fun _ => ⟨q, hq, hqpos⟩, fun _ =>
        ⟨promoWriteCall env ⟨u.developerId, u.payerId, u.payeeId, q,
            u.interactionTypeId, tx⟩ (env.gen 3), by simp,
          by simp [isPromotionLedgerWrite, paramNames, promoWriteCall]⟩⟩,
        env.gen 4, env.gen 2, by simp, fun _ => ⟨q, env.gen 3, hq, by simp,
          by simp [txWriteCall]⟩, fun hnp => absurd ⟨q, hq, hqpos⟩ hnp⟩
    · rw [run_ok_fed_noPromo env u pi tx a b hv hgen hstore hpm hamt ha hb
        hpromo]
      refine ⟨⟨?_, fun hpg => absurd hpg hpromo⟩,
        env.gen 3, env.gen 2, by simp, fun hpg => absurd hpg hpromo,
        fun _ => by simp [txWriteCall]⟩
      rintro ⟨c, hc, hw⟩
      exfalso
      simp at hc
      rcases hc with h | h | h | h <;> subst h <;> revert hw <;>
        simp [isPromotionLedgerWrite, paramNames, paymentWriteCall,
          fedNowWriteCall, ledgerWriteCall, txWriteCall]
  · by_cases hpromo : PromoGuard pi
    · obtain ⟨q, hq, hqpos⟩ := hpromo
      rw [run_ok_noFed_promo env u pi tx q hv hstore hfed hq hqpos]
      refine ⟨⟨fun _ => ⟨q, hq, hqpos⟩, fun _ =>
        ⟨promoWriteCall env ⟨u.developerId, u.payerId, u.payeeId, q,
            u.interactionTypeId, tx⟩ (env.gen 2), by simp,
          by simp [isPromotionLedgerWrite, paramNames, promoWriteCall]⟩⟩,
        env.gen 3, env.gen 1, by simp, fun _ => ⟨q, env.gen 2, hq, by simp,
          by simp [txWriteCall]⟩, fun hnp => absurd ⟨q, hq, hqpos⟩ hnp⟩
    · rw [run_ok_noFed_noPromo env u pi tx hv hstore hfed hpromo]
      refine ⟨⟨?_, fun hpg => absurd hpg hpromo⟩,
        env.gen 2, env.gen 1, by simp, fun hpg => absurd hpg hpromo,
        fun _ => by simp [txWriteCall]⟩
      rintro ⟨c, hc, hw⟩
      exfalso
      simp at hc
      rcases hc with h | h | h <;> subst h <;> revert hw <;>
        simp [isPromotionLedgerWrite, paramNames, paymentWriteCall,
          ledgerWriteCall, txWriteCall]

/-- C4 (amended): on a valid bundle input with promoAmount > 0, the
PromotionLedgerEntry statement is issued and its `payerId` parameter is the
purchase input's `payerId` (not its `developerId`), with `amount` equal to
`promoAmount`. -/
theorem claimC4_amended_promo_payer_is_payer (env : Env)
    (u : UserPurchaseInformation) (pi : PromotionInformation) (tx : String)
    (q : Rat) (hv : ValidInput u pi tx)
    (hgen : ∀ n, (env.gen n).length = 32)
    (hstore : ∀ n, env.storeFail n = none)
    (hq : pi.promoAmount = some q) (hqpos : 0 < q) :
    (∃ c ∈ (executeStandardPTOperations env ⟨u, pi, tx⟩).2.calls,
      isPromotionLedgerWrite c) ∧
    (∀ c ∈ (executeStandardPTOperations env ⟨u, pi, tx⟩).2.calls,
      isPromotionLedgerWrite c →
      findParam c "payerId" = some (.blobFromHex u.payerId) ∧
      findParam c "amount" = some (.doubleValue q)) := by
  by_cases hfed : FedNowGuard u
  · obtain ⟨hpm, hamt, hpan, hpbn⟩ := hfed
    obtain ⟨a, ha⟩ := Option.ne_none_iff_exists'.mp hpan
    obtain ⟨b, hb⟩ := Option.ne_none_iff_exists'.mp hpbn
    rw [run_ok_fed_promo env u pi tx a b q hv hgen hstore hpm hamt ha hb
      hq hqpos]
    refine ⟨⟨promoWriteCall env ⟨u.developerId, u.payerId, u.payeeId, q,
        u.interactionTypeId, tx⟩ (env.gen 3), by simp,
      by simp [isPromotionLedgerWrite, paramNames, promoWriteCall]⟩, ?_⟩
    intro c hc hw
    simp at hc
    rcases hc with h | h | h | h | h <;> subst h <;> revert hw <;>
      simp [isPromotionLedgerWrite, paramNames, paymentWriteCall,
        fedNowWriteCall, ledgerWriteCall, promoWriteCall, txWriteCall,
        findParam, List.find?]
  · rw [run_ok_noFed_promo env u pi tx q hv hstore hfed hq hqpos]
    refine ⟨⟨promoWriteCall env ⟨u.developerId, u.payerId, u.payeeId, q,
        u.interactionTypeId, tx⟩ (env.gen 2), by simp,
      by simp [isPromotionLedgerWrite, paramNames, promoWriteCall]⟩, ?_⟩
    intro c hc hw
    simp at hc
    rcases hc with h | h | h | h <;> subst h <;> revert hw <;>
      simp [isPromotionLedgerWrite, paramNames, paymentWriteCall,
        ledgerWriteCall, promoWriteCall, txWriteCall, findParam, List.find?]

theorem envW_gen_len : ∀ n, (envW.gen n).length = 32 := by
  intro n
  show (List.replicate 31 'a' ++ [Nat.digitChar (n % 10)]).length = 32
  simp

theorem envW_store_ok : ∀ n, envW.storeFail n = none := fun _ => rfl

theorem valid_uCard_piNone : ValidInput uCard piNone txW := by
  refine ⟨by decide, by decide, ?_, ?_, by decide, by decide, by decide,
    ?_, by decide⟩ <;> intro s hs <;> simp [uCard, piNone] at hs

theorem valid_uCard_piPromo : ValidInput uCard piPromo txW := by
  refine ⟨by decide, by decide, ?_, ?_, by decide, by decide, by decide,
    ?_, by decide⟩
  · intro s hs
    simp [uCard] at hs
  · intro s hs
    simp [uCard] at hs
  · intro q hq
    simp [piPromo] at hq
    subst hq
    decide

theorem valid_uFed_piNone : ValidInput uFed piNone txW := by
  refine ⟨by decide, by decide, ?_, ?_, by decide, by decide, by decide,
    ?_, by decide⟩
  · intro s hs
    simp [uFed] at hs
    subst hs
    decide
  · intro s hs
    simp [uFed] at hs
    subst hs
    decide
  · intro q hq
    simp [piNone] at hq

/-- C4 (counterexample): at the spec's own example input extended with a
promotion of 10, the promotion-ledger statement's `payerId` parameter is
the purchase's `payerId` (`'b' * 32`), not its `developerId` (`'c' * 32`)
as the claim states. -/
theorem claimC4_counterexample :
    uCard.developerId ≠ uCard.payerId ∧
    ∃ c ∈ (executeStandardPTOperations envW ⟨uCard, piPromo, txW⟩).2.calls,
      isPromotionLedgerWrite c ∧
      findParam c "payerId" = some (.blobFromHex uCard.payerId) ∧
      findParam c "payerId" ≠ some (.blobFromHex uCard.developerId) := by
  decide

/-- C8 (counterexample): a 32-character payerId made entirely of the
non-hex character `'z'` passes bundle validation with no issues — the
schemas check only the length, never hexadecimal content — contradicting
the claim that such an input fails validation. -/
theorem claimC8_counterexample :
    uNonHex.payerId.length = 32 ∧
    isLowerHexString uNonHex.payerId = false ∧
    ExecuteStandardPTOperationsParamsSchema ⟨uNonHex, piNone, txW⟩ = [] := by
  decide

/-- C8 (amended): the bundle validator rejects any payerId, payeeId,
developerId or scope token whose length is not exactly 32, reporting a
violation at that field's path; hexadecimal content is not checked (see
the counterexample: 32 non-hex characters pass). -/
theorem claimC8_amended_length_only (u : UserPurchaseInformation)
    (pi : PromotionInformation) (tx : String) :
    (u.payerId.length ≠ 32 → ∃ code,
      Violation.mk ["userPurchaseInformation", "payerId"] code ∈
        ExecuteStandardPTOperationsParamsSchema ⟨u, pi, tx⟩) ∧
    (u.payeeId.length ≠ 32 → ∃ code,
      Violation.mk ["userPurchaseInformation", "payeeId"] code ∈
        ExecuteStandardPTOperationsParamsSchema ⟨u, pi, tx⟩) ∧
    (u.developerId.length ≠ 32 → ∃ code,
      Violation.mk ["userPurchaseInformation", "developerId"] code ∈
        ExecuteStandardPTOperationsParamsSchema ⟨u, pi, tx⟩) ∧
    (tx.length ≠ 32 → ∃ code,
      Violation.mk ["sqlTransactionId"] code ∈
        ExecuteStandardPTOperationsParamsSchema ⟨u, pi, tx⟩) := by
  refine ⟨?_, ?_, ?_, ?_⟩ <;> intro hne
  · rcases Nat.lt_or_ge u.payerId.length 32 with hlt | hge
    · refine ⟨"too_small", ?_⟩
      simp [ExecuteStandardPTOperationsParamsSchema,
        UserPurchaseInformationSchema, underKey, checkLen32, if_pos hlt]
    · have hgt : 32 < u.payerId.length := lt_of_le_of_ne hge (Ne.symm hne)
      refine ⟨"too_big", ?_⟩
      simp [ExecuteStandardPTOperationsParamsSchema,
        UserPurchaseInformationSchema, underKey, checkLen32,
        if_neg (not_lt.mpr hge), if_pos hgt]
  · rcases Nat.lt_or_ge u.payeeId.length 32 with hlt | hge
    · refine ⟨"too_small", ?_⟩
      simp [ExecuteStandardPTOperationsParamsSchema,
        UserPurchaseInformationSchema, underKey, checkLen32, if_pos hlt]
    · have hgt : 32 < u.payeeId.length := lt_of_le_of_ne hge (Ne.symm hne)
      refine ⟨"too_big", ?_⟩
      simp [ExecuteStandardPTOperationsParamsSchema,
        UserPurchaseInformationSchema, underKey, checkLen32,
        if_neg (not_lt.mpr hge), if_pos hgt]
  · rcases Nat.lt_or_ge u.developerId.length 32 with hlt | hge
    · refine ⟨"too_small", ?_⟩
      simp [ExecuteStandardPTOperationsParamsSchema,
        UserPurchaseInformationSchema, underKey, checkLen32, if_pos hlt]
    · have hgt : 32 < u.developerId.length := lt_of_le_of_ne hge (Ne.symm hne)
      refine ⟨"too_big", ?_⟩
      simp [ExecuteStandardPTOperationsParamsSchema,
        UserPurchaseInformationSchema, underKey, checkLen32,
        if_neg (not_lt.mpr hge), if_pos hgt]
  · rcases Nat.lt_or_ge tx.length 32 with hlt | hge
    · refine ⟨"too_small", ?_⟩
      simp [ExecuteStandardPTOperationsParamsSchema, underKey, checkLen32,
        if_pos hlt]
    · have hgt : 32 < tx.length := lt_of_le_of_ne hge (Ne.symm hne)
      refine ⟨"too_big", ?_⟩
      simp [ExecuteStandardPTOperationsParamsSchema, underKey, checkLen32,
        if_neg (not_lt.mpr hge), if_pos hgt]

/-- The statements a writer builds do not depend on the store's failure
behaviour: overriding `storeFail` leaves every built call unchanged. -/
@[simp] theorem paymentWriteCall_update_storeFail (env : Env)
    (f : Nat → Option String) (q : InsertPaymentParams) (pid : String) :
    paymentWriteCall { env with storeFail := f } q pid =
      paymentWriteCall env q pid := rfl

@[simp] theorem fedNowWriteCall_update_storeFail (env : Env)
    (f : Nat → Option String) (q : InsertFedNowPaymentParams) (pid : String) :
    fedNowWriteCall { env with storeFail := f } q pid =
      fedNowWriteCall env q pid := rfl

@[simp] theorem ledgerWriteCall_update_storeFail (env : Env)
    (f : Nat → Option String) (q : InsertLedgerEntryParams) (pid : String) :
    ledgerWriteCall { env with storeFail := f } q pid =
      ledgerWriteCall env q pid := rfl

@[simp] theorem promoWriteCall_update_storeFail (env : Env)
    (f : Nat → Option String) (q : InsertPromotionLedgerEntryParams)
    (pid : String) :
    promoWriteCall { env with storeFail := f } q pid =
      promoWriteCall env q pid := rfl

@[simp] theorem txWriteCall_update_storeFail (env : Env)
    (f : Nat → Option String) (q : InsertTransactionRecordParams)
    (pid : String) :
    txWriteCall { env with storeFail := f } q pid =
      txWriteCall env q pid := rfl

/-- C6: if the store raises an error on the (k+1)-th write of a valid
bundle's sequence, the orchestrator rejects with that same store error
unchanged, the issued calls are exactly the first k+1 calls of the
sequence the fault-free store would receive (no step after the failing
one executes), and no `ResultCorrelation` is returned. -/
theorem claimC6_store_error_aborts (env : Env) (u : UserPurchaseInformation)
    (pi : PromotionInformation) (tx : String) (hv : ValidInput u pi tx)
    (hgen : ∀ n, (env.gen n).length = 32) (k : Nat) (e : String)
    (hpre : ∀ i, i < k → env.storeFail i = none)
    (hk : env.storeFail k = some e)
    (hcount : k < (executeStandardPTOperations
        { env with storeFail := fun _ => none } ⟨u, pi, tx⟩).2.calls.length) :
    (executeStandardPTOperations env ⟨u, pi, tx⟩).1 =
      .error (.storeError e) ∧
    (executeStandardPTOperations env ⟨u, pi, tx⟩).2.calls =
      ((executeStandardPTOperations { env with storeFail := fun _ => none }
          ⟨u, pi, tx⟩).2.calls).take (k + 1) := by
  have hstore' : ∀ n,
      ({ env with storeFail := fun _ => none } : Env).storeFail n = none :=
    fun _ => rfl
  by_cases hfed : FedNowGuard u
  · obtain ⟨hpm, hamt, hpan, hpbn⟩ := hfed
    obtain ⟨a, ha⟩ := Option.ne_none_iff_exists'.mp hpan
    obtain ⟨b, hb⟩ := Option.ne_none_iff_exists'.mp hpbn
    have hand : u.paymentMethod = PaymentMethodFedNow ∧ 0 < u.amount :=
      ⟨hpm, hamt⟩
    by_cases hpromo : PromoGuard pi
    · obtain ⟨q, hq, hqpos⟩ := hpromo
      rw [run_ok_fed_promo { env with storeFail := fun _ => none } u pi tx
        a b q hv hgen hstore' hpm hamt ha hb hq hqpos] at hcount ⊢
      simp at hcount
      interval_cases k <;>
        simp [executeStandardPTOperations, bundleSchema_eq_nil hv, ha, hb,
          hq, if_pos hand, if_pos hqpos, List.take,
          insertPayment_okLt env _ hpre, insertPayment_errAt env _ _ hk,
          insertFedNowPayment_okLt env _ hpre,
          insertFedNowPayment_errAt env _ _ hk,
          insertLedgerEntry_okLt env _ hpre,
          insertLedgerEntry_errAt env _ _ hk,
          insertPromotionLedgerEntry_okLt env _ hpre,
          insertPromotionLedgerEntry_errAt env _ _ hk,
          insertTransactionRecord_okLt env _ hpre,
          insertTransactionRecord_errAt env _ _ hk,
          bundlePaymentSchema_eq_nil hv, bundleLedgerSchema_eq_nil hv,
          bundleTxSchema_eq_nil hv,
          bundleFedNowSchema_eq_nil hv (hgen 0) ha hb,
          bundlePromoSchema_eq_nil hv (le_of_lt hqpos)]
    · rw [run_ok_fed_noPromo { env with storeFail := fun _ => none } u pi tx
        a b hv hgen hstore' hpm hamt ha hb hpromo] at hcount ⊢
      simp at hcount
      have hq0 : ∀ r, pi.promoAmount = some r → ¬ 0 < r :=
        fun r hr hlt => hpromo ⟨r, hr, hlt⟩
      rcases hpq : pi.promoAmount with _ | q
      · interval_cases k <;>
          simp [executeStandardPTOperations, bundleSchema_eq_nil hv, ha, hb,
            hpq, if_pos hand, List.take,
            insertPayment_okLt env _ hpre, insertPayment_errAt env _ _ hk,
            insertFedNowPayment_okLt env _ hpre,
            insertFedNowPayment_errAt env _ _ hk,
            insertLedgerEntry_okLt env _ hpre,
            insertLedgerEntry_errAt env _ _ hk,
            insertTransactionRecord_okLt env _ hpre,
            insertTransactionRecord_errAt env _ _ hk,
            bundlePaymentSchema_eq_nil hv, bundleLedgerSchema_eq_nil hv,
            bundleTxSchema_eq_nil hv,
            bundleFedNowSchema_eq_nil hv (hgen 0) ha hb]
      · interval_cases k <;>
          simp [executeStandardPTOperations, bundleSchema_eq_nil hv, ha, hb,
            hpq, if_pos hand, if_neg (hq0 q hpq), List.take,
            insertPayment_okLt env _ hpre, insertPayment_errAt env _ _ hk,
            insertFedNowPayment_okLt env _ hpre,
            insertFedNowPayment_errAt env _ _ hk,
            insertLedgerEntry_okLt env _ hpre,
            insertLedgerEntry_errAt env _ _ hk,
            insertTransactionRecord_okLt env _ hpre,
            insertTransactionRecord_errAt env _ _ hk,
            bundlePaymentSchema_eq_nil hv, bundleLedgerSchema_eq_nil hv,
            bundleTxSchema_eq_nil hv,
            bundleFedNowSchema_eq_nil hv (hgen 0) ha hb]
  · by_cases hpromo : PromoGuard pi
    · obtain ⟨q, hq, hqpos⟩ := hpromo
      rw [run_ok_noFed_promo _ u pi tx q hv hstore' hfed hq hqpos]
        at hcount ⊢
      simp at hcount
      rcases hpa : u.payerAccountId with _ | a <;>
        rcases hpb : u.payeeAccountId with _ | b
      · interval_cases k <;>
          simp [executeStandardPTOperations, bundleSchema_eq_nil hv, hpa,
            hpb, hq, if_pos hqpos, List.take,
            insertPayment_okLt env _ hpre, insertPayment_errAt env _ _ hk,
            insertLedgerEntry_okLt env _ hpre,
            insertLedgerEntry_errAt env _ _ hk,
            insertPromotionLedgerEntry_okLt env _ hpre,
            insertPromotionLedgerEntry_errAt env _ _ hk,
            insertTransactionRecord_okLt env _ hpre,
            insertTransactionRecord_errAt env _ _ hk,
            bundlePaymentSchema_eq_nil hv, bundleLedgerSchema_eq_nil hv,
            bundleTxSchema_eq_nil hv,
            bundlePromoSchema_eq_nil hv (le_of_lt hqpos)]
      · interval_cases k <;>
          simp [executeStandardPTOperations, bundleSchema_eq_nil hv, hpa,
            hpb, hq, if_pos hqpos, List.take,
            insertPayment_okLt env _ hpre, insertPayment_errAt env _ _ hk,
            insertLedgerEntry_okLt env _ hpre,
            insertLedgerEntry_errAt env _ _ hk,
            insertPromotionLedgerEntry_okLt env _ hpre,
            insertPromotionLedgerEntry_errAt env _ _ hk,
            insertTransactionRecord_okLt env _ hpre,
            insertTransactionRecord_errAt env _ _ hk,
            bundlePaymentSchema_eq_nil hv, bundleLedgerSchema_eq_nil hv,
            bundleTxSchema_eq_nil hv,
            bundlePromoSchema_eq_nil hv (le_of_lt hqpos)]
      · interval_cases k <;>
          simp [executeStandardPTOperations, bundleSchema_eq_nil hv, hpa,
            hpb, hq, if_pos hqpos, List.take,
            insertPayment_okLt env _ hpre, insertPayment_errAt env _ _ hk,
            insertLedgerEntry_okLt env _ hpre,
            insertLedgerEntry_errAt env _ _ hk,
            insertPromotionLedgerEntry_okLt env _ hpre,
            insertPromotionLedgerEntry_errAt env _ _ hk,
            insertTransactionRecord_okLt env _ hpre,
            insertTransactionRecord_errAt env _ _ hk,
            bundlePaymentSchema_eq_nil hv, bundleLedgerSchema_eq_nil hv,
            bundleTxSchema_eq_nil hv,
            bundlePromoSchema_eq_nil hv (le_of_lt hqpos)]
      · have hno : ¬(u.paymentMethod = PaymentMethodFedNow ∧
            0 < u.amount) :=
          fun hand => hfed ⟨hand.1, hand.2, by simp [hpa], by simp [hpb]⟩
        interval_cases k <;>
          simp [executeStandardPTOperations, bundleSchema_eq_nil hv, hpa,
            hpb, hq, if_neg hno, if_pos hqpos, List.take,
            insertPayment_okLt env _ hpre, insertPayment_errAt env _ _ hk,
            insertLedgerEntry_okLt env _ hpre,
            insertLedgerEntry_errAt env _ _ hk,
            insertPromotionLedgerEntry_okLt env _ hpre,
            insertPromotionLedgerEntry_errAt env _ _ hk,
            insertTransactionRecord_okLt env _ hpre,
            insertTransactionRecord_errAt env _ _ hk,
            bundlePaymentSchema_eq_nil hv, bundleLedgerSchema_eq_nil hv,
            bundleTxSchema_eq_nil hv,
            bundlePromoSchema_eq_nil hv (le_of_lt hqpos)]
    · rw [run_ok_noFed_noPromo _ u pi tx hv hstore' hfed hpromo]
        at hcount ⊢
      simp at hcount
      have hq0 : ∀ r, pi.promoAmount = some r → ¬ 0 < r :=
        fun r hr hlt => hpromo ⟨r, hr, hlt⟩
      rcases hpa : u.payerAccountId with _ | a <;>
        rcases hpb : u.payeeAccountId with _ | b <;>
        rcases hpq : pi.promoAmount with _ | q
      · interval_cases k <;>
          simp [executeStandardPTOperations, bundleSchema_eq_nil hv, hpa,
            hpb, hpq, List.take,
            insertPayment_okLt env _ hpre, insertPayment_errAt env _ _ hk,
            insertLedgerEntry_okLt env _ hpre,
            insertLedgerEntry_errAt env _ _ hk,
            insertTransactionRecord_okLt env _ hpre,
            insertTransactionRecord_errAt env _ _ hk,
            bundlePaymentSchema_eq_nil hv, bundleLedgerSchema_eq_nil hv,
            bundleTxSchema_eq_nil hv]
      · interval_cases k <;>
          simp [executeStandardPTOperations, bundleSchema_eq_nil hv, hpa,
            hpb, hpq, if_neg (hq0 q hpq), List.take,
            insertPayment_okLt env _ hpre, insertPayment_errAt env _ _ hk,
            insertLedgerEntry_okLt env _ hpre,
            insertLedgerEntry_errAt env _ _ hk,
            insertTransactionRecord_okLt env _ hpre,
            insertTransactionRecord_errAt env _ _ hk,
            bundlePaymentSchema_eq_nil hv, bundleLedgerSchema_eq_nil hv,
            bundleTxSchema_eq_nil hv]
      · interval_cases k <;>
          simp [executeStandardPTOperations, bundleSchema_eq_nil hv, hpa,
            hpb, hpq, List.take,
            insertPayment_okLt env _ hpre, insertPayment_errAt env _ _ hk,
            insertLedgerEntry_okLt env _ hpre,
            insertLedgerEntry_errAt env _ _ hk,
            insertTransactionRecord_okLt env _ hpre,
            insertTransactionRecord_errAt env _ _ hk,
            bundlePaymentSchema_eq_nil hv, bundleLedgerSchema_eq_nil hv,
            bundleTxSchema_eq_nil hv]
      · interval_cases k <;>
          simp [executeStandardPTOperations, bundleSchema_eq_nil hv, hpa,
            hpb, hpq, if_neg (hq0 q hpq), List.take,
            insertPayment_okLt env _ hpre, insertPayment_errAt env _ _ hk,
            insertLedgerEntry_okLt env _ hpre,
            insertLedgerEntry_errAt env _ _ hk,
            insertTransactionRecord_okLt env _ hpre,
            insertTransactionRecord_errAt env _ _ hk,
            bundlePaymentSchema_eq_nil hv, bundleLedgerSchema_eq_nil hv,
            bundleTxSchema_eq_nil hv]
      · interval_cases k <;>
          simp [executeStandardPTOperations, bundleSchema_eq_nil hv, hpa,
            hpb, hpq, List.take,
            insertPayment_okLt env _ hpre, insertPayment_errAt env _ _ hk,
            insertLedgerEntry_okLt env _ hpre,
            insertLedgerEntry_errAt env _ _ hk,
            insertTransactionRecord_okLt env _ hpre,
            insertTransactionRecord_errAt env _ _ hk,
            bundlePaymentSchema_eq_nil hv, bundleLedgerSchema_eq_nil hv,
            bundleTxSchema_eq_nil hv]
      · interval_cases k <;>
          simp [executeStandardPTOperations, bundleSchema_eq_nil hv, hpa,
            hpb, hpq, if_neg (hq0 q hpq), List.take,
            insertPayment_okLt env _ hpre, insertPayment_errAt env _ _ hk,
            insertLedgerEntry_okLt env _ hpre,
            insertLedgerEntry_errAt env _ _ hk,
            insertTransactionRecord_okLt env _ hpre,
            insertTransactionRecord_errAt env _ _ hk,
            bundlePaymentSchema_eq_nil hv, bundleLedgerSchema_eq_nil hv,
            bundleTxSchema_eq_nil hv]
      · have hno : ¬(u.paymentMethod = PaymentMethodFedNow ∧
            0 < u.amount) :=
          fun hand => hfed ⟨hand.1, hand.2, by simp [hpa], by simp [hpb]⟩
        interval_cases k <;>
          simp [executeStandardPTOperations, bundleSchema_eq_nil hv, hpa,
            hpb, hpq, if_neg hno, List.take,
            insertPayment_okLt env _ hpre, insertPayment_errAt env _ _ hk,
            insertLedgerEntry_okLt env _ hpre,
            insertLedgerEntry_errAt env _ _ hk,
            insertTransactionRecord_okLt env _ hpre,
            insertTransactionRecord_errAt env _ _ hk,
            bundlePaymentSchema_eq_nil hv, bundleLedgerSchema_eq_nil hv,
            bundleTxSchema_eq_nil hv]
      · have hno : ¬(u.paymentMethod = PaymentMethodFedNow ∧
            0 < u.amount) :=
          fun hand => hfed ⟨hand.1, hand.2, by simp [hpa], by simp [hpb]⟩
        interval_cases k <;>
          simp [executeStandardPTOperations, bundleSchema_eq_nil hv, hpa,
            hpb, hpq, if_neg hno, if_neg (hq0 q hpq), List.take,
            insertPayment_okLt env _ hpre, insertPayment_errAt env _ _ hk,
            insertLedgerEntry_okLt env _ hpre,
            insertLedgerEntry_errAt env _ _ hk,
            insertTransactionRecord_okLt env _ hpre,
            insertTransactionRecord_errAt env _ _ hk,
            bundlePaymentSchema_eq_nil hv, bundleLedgerSchema_eq_nil hv,
            bundleTxSchema_eq_nil hv]

/-- C9 (counterexample): `insertLedgerEntry`, invoked directly with an
otherwise-valid input whose amount is `-1`, succeeds and issues its store
write — its schema's `amount` is a plain `z.number()` with no
`.nonnegative()` — contradicting the claim that it fails with a
ValidationError and no write. -/
theorem claimC9_counterexample :
    qLedgerNeg.amount < 0 ∧
    InsertLedgerEntryParamsSchema qLedgerNeg = [] ∧
    insertLedgerEntry envW ⟨0, []⟩ qLedgerNeg =
      (.ok (envW.gen 0), ⟨1, [ledgerWriteCall envW qLedgerNeg (envW.gen 0)]⟩) := by
  refine ⟨by decide, by decide, ?_⟩
  have h := insertLedgerEntry_ok envW ⟨0, []⟩ qLedgerNeg (by decide)
    (envW_store_ok 0)
  simpa using h

/-- C9 (amended): every writer validates its own parameters before issuing
its store write, and a failing validation aborts with the aggregated
`ValidationError` and no write; but `insertLedgerEntry`'s schema does not
constrain the sign of `amount`, so an otherwise-valid direct invocation
with any amount — negative included — passes validation and issues exactly
one store write. -/
theorem claimC9_amended_ledger_accepts_negative (env : Env) (st : St)
    (q : InsertLedgerEntryParams)
    (hpayer : q.payerId.length = 32) (hpayee : q.payeeId.length = 32)
    (hdev : q.developerId.length = 32)
    (hf : env.storeFail st.calls.length = none) :
    (insertLedgerEntry env st q =
      (.ok (env.gen st.nextGen),
       ⟨st.nextGen + 1,
        st.calls ++ [ledgerWriteCall env q (env.gen st.nextGen)]⟩)) ∧
    (∀ (q' : InsertLedgerEntryParams) (e : Violation) (es : List Violation),
      InsertLedgerEntryParamsSchema q' = e :: es →
      insertLedgerEntry env st q' =
        (.error (.validationError (e :: es)), st)) := by
  constructor
  · refine insertLedgerEntry_ok env st q ?_ hf
    simp [InsertLedgerEntryParamsSchema, checkNumber, checkString,
      checkLen32_eq_nil hpayer, checkLen32_eq_nil hpayee,
      checkLen32_eq_nil hdev]
  · intro q' e es h
    exact insertLedgerEntry_invalid env st q' h

/-! ## Witnesses: the claim theorems applied at concrete inputs -/

theorem claimC1_witness :
    ValidInput uFed piNone txW ∧
    (∀ n, (envW.gen n).length = 32) ∧ (∀ n, envW.storeFail n = none) ∧
    (((∃ c ∈ (executeStandardPTOperations envW ⟨uFed, piNone, txW⟩).2.calls,
        "fedNowPaymentId" ∈ paramNames c) ↔ FedNowGuard uFed) ∧
     (∀ c ∈ (executeStandardPTOperations envW ⟨uFed, piNone, txW⟩).2.calls,
       "fedNowPaymentId" ∈ paramNames c →
       ∃ idObj pid,
         (executeStandardPTOperations envW ⟨uFed, piNone, txW⟩).1 =
           .ok idObj ∧
         idObj.primaryPaymentID = some pid ∧
         findParam c "paymentId" = some (.blobFromHex pid))) :=
  ⟨valid_uFed_piNone, envW_gen_len, envW_store_ok,
   claimC1_settlement_write_iff_guard envW uFed piNone txW valid_uFed_piNone
     envW_gen_len envW_store_ok⟩

theorem claimC2_witness :
    InsertPaymentParamsSchema qPayW = [] ∧
    (∃ c : StoreCall, (insertPayment envW ⟨0, []⟩ qPayW).2.calls = [c] ∧
      (findParam c "paymentStatus" =
          some (.doubleValue PaymentStatusCOMPLETE) ↔
        (qPayW.paymentMethod ≠ PaymentMethodFedNow ∨ qPayW.amount = 0)) ∧
      (findParam c "paymentStatus" =
          some (.doubleValue PaymentStatusPENDING) ↔
        ¬(qPayW.paymentMethod ≠ PaymentMethodFedNow ∨ qPayW.amount = 0)) ∧
      (findParam c "datePaid" =
          some (.stringOrNull (some (formatDate envW.nowMs envW.nowMs))
            false) ↔
        (qPayW.paymentMethod ≠ PaymentMethodFedNow ∨ qPayW.amount = 0)) ∧
      (findParam c "datePaid" = some (.stringOrNull none true) ↔
        ¬(qPayW.paymentMethod ≠ PaymentMethodFedNow ∨ qPayW.amount = 0)) ∧
      isTimestampFormat (formatDate envW.nowMs envW.nowMs) = true) :=
  ⟨by decide, claimC2_payment_status_datePaid envW ⟨0, []⟩ qPayW (by decide)⟩

theorem claimC3_witness :
    ValidInput uCard piPromo txW ∧
    (((∃ c ∈ (executeStandardPTOperations envW ⟨uCard, piPromo, txW⟩).2.calls,
        isPromotionLedgerWrite c) ↔ PromoGuard piPromo) ∧
     (∃ tid lid,
       ledgerWriteCall envW ⟨uCard.payerId, uCard.payeeId, uCard.developerId,
           uCard.amount, uCard.interactionTypeId, txW⟩ lid ∈
         (executeStandardPTOperations envW ⟨uCard, piPromo, txW⟩).2.calls ∧
       (PromoGuard piPromo →
         ∃ q plid, piPromo.promoAmount = some q ∧
           promoWriteCall envW ⟨uCard.developerId, uCard.payerId,
               uCard.payeeId, q, uCard.interactionTypeId, txW⟩ plid ∈
             (executeStandardPTOperations envW ⟨uCard, piPromo, txW⟩).2.calls ∧
           (executeStandardPTOperations envW
               ⟨uCard, piPromo, txW⟩).2.calls.getLast? =
             some (.batchExecuteStatement (mkStatementRequest envW txW)
               [[⟨"transactionId", .blobFromHex tid⟩,
                 ⟨"ledgerId", .blobFromHex lid⟩],
                [⟨"transactionId", .blobFromHex tid⟩,
                 ⟨"ledgerId", .blobFromHex plid⟩]])) ∧
       (¬ PromoGuard piPromo →
         (executeStandardPTOperations envW
             ⟨uCard, piPromo, txW⟩).2.calls.getLast? =
           some (.batchExecuteStatement (mkStatementRequest envW txW)
             [[⟨"transactionId", .blobFromHex tid⟩,
               ⟨"ledgerId", .blobFromHex lid⟩]])))) :=
  ⟨valid_uCard_piPromo,
   claimC3_promo_iff_and_batch_sets envW uCard piPromo txW
     valid_uCard_piPromo envW_gen_len envW_store_ok⟩

theorem claimC4_witness :
    ValidInput uCard piPromo txW ∧ piPromo.promoAmount = some 10 ∧
    (0 : Rat) < 10 ∧
    ((∃ c ∈ (executeStandardPTOperations envW ⟨uCard, piPromo, txW⟩).2.calls,
      isPromotionLedgerWrite c) ∧
     (∀ c ∈ (executeStandardPTOperations envW ⟨uCard, piPromo, txW⟩).2.calls,
       isPromotionLedgerWrite c →
       findParam c "payerId" = some (.blobFromHex uCard.payerId) ∧
       findParam c "amount" = some (.doubleValue 10))) :=
  ⟨valid_uCard_piPromo, rfl, by norm_num,
   claimC4_amended_promo_payer_is_payer envW uCard piPromo txW 10
     valid_uCard_piPromo envW_gen_len envW_store_ok rfl (by norm_num)⟩

theorem claimC5_witness :
    ExecuteStandardPTOperationsParamsSchema pBad =
      [⟨["userPurchaseInformation", "payerId"], "too_small"⟩,
       ⟨["userPurchaseInformation", "amount"], "too_small"⟩] ∧
    executeStandardPTOperations envW pBad =
      (.error (.validationError
        [⟨["userPurchaseInformation", "payerId"], "too_small"⟩,
         ⟨["userPurchaseInformation", "amount"], "too_small"⟩]), ⟨0, []⟩) :=
  ⟨by decide,
   claimC5_validation_aborts_before_writes envW pBad
     ⟨["userPurchaseInformation", "payerId"], "too_small"⟩
     [⟨["userPurchaseInformation", "amount"], "too_small"⟩] (by decide)⟩

theorem claimC6_witness :
    (∀ i, i < 1 → envFail1.storeFail i = none) ∧
    envFail1.storeFail 1 = some "Database operation failed" ∧
    1 < (executeStandardPTOperations
        { envFail1 with storeFail := fun _ => none }
        ⟨uCard, piNone, txW⟩).2.calls.length ∧
    ((executeStandardPTOperations envFail1 ⟨uCard, piNone, txW⟩).1 =
      .error (.storeError "Database operation failed") ∧
     (executeStandardPTOperations envFail1 ⟨uCard, piNone, txW⟩).2.calls =
       ((executeStandardPTOperations
           { envFail1 with storeFail := fun _ => none }
           ⟨uCard, piNone, txW⟩).2.calls).take 2) :=
  ⟨by decide, rfl, by decide,
   claimC6_store_error_aborts envFail1 uCard piNone txW valid_uCard_piNone
     envW_gen_len 1 "Database operation failed" (by decide) rfl (by decide)⟩

theorem claimC7_witness :
    ValidInput uCard piNone txW ∧
    (∃ idObj,
      (executeStandardPTOperations envW ⟨uCard, piNone, txW⟩).1 =
        .ok idObj ∧
      ∃ pid lid tid,
        idObj.primaryPaymentID = some pid ∧
        idObj.customerLedgerEntryID = some lid ∧
        idObj.pursTransactionID = some tid ∧
        (executeStandardPTOperations envW ⟨uCard, piNone, txW⟩).2.calls.head? =
          some (paymentWriteCall envW ⟨uCard.payerId, uCard.payeeId,
            uCard.developerId, uCard.amount, uCard.interactionTypeId,
            uCard.paymentMethod, txW⟩ pid) ∧
        ledgerWriteCall envW ⟨uCard.payerId, uCard.payeeId,
            uCard.developerId, uCard.amount, uCard.interactionTypeId,
            txW⟩ lid ∈
          (executeStandardPTOperations envW ⟨uCard, piNone, txW⟩).2.calls ∧
        (∃ entries,
          (executeStandardPTOperations envW
              ⟨uCard, piNone, txW⟩).2.calls.getLast? =
            some (txWriteCall envW ⟨entries, txW⟩ tid)) ∧
        (idObj.primaryFedNowPaymentID.isSome ↔ FedNowGuard uCard) ∧
        (idObj.promotionLedgerEntryID.isSome ↔ PromoGuard piNone)) :=
  ⟨valid_uCard_piNone,
   claimC7_result_correlation envW uCard piNone txW valid_uCard_piNone
     envW_gen_len envW_store_ok⟩

theorem claimC8_witness :
    uBadLen.payerId.length ≠ 32 ∧
    ∃ code, Violation.mk ["userPurchaseInformation", "payerId"] code ∈
      ExecuteStandardPTOperationsParamsSchema ⟨uBadLen, piNone, txW⟩ :=
  ⟨by decide,
   (claimC8_amended_length_only uBadLen piNone txW).1 (by decide)⟩

theorem claimC9_witness :
    qLedgerNeg.payerId.length = 32 ∧ qLedgerNeg.payeeId.length = 32 ∧
    qLedgerNeg.developerId.length = 32 ∧
    envW.storeFail 0 = none ∧ qLedgerNeg.amount < 0 ∧
    ((insertLedgerEntry envW ⟨0, []⟩ qLedgerNeg =
      (.ok (envW.gen 0),
       ⟨1, [ledgerWriteCall envW qLedgerNeg (envW.gen 0)]⟩)) ∧
     (∀ (q' : InsertLedgerEntryParams) (e : Violation) (es : List Violation),
       InsertLedgerEntryParamsSchema q' = e :: es →
       insertLedgerEntry envW ⟨0, []⟩ q' =
         (.error (.validationError (e :: es)), ⟨0, []⟩))) :=
  ⟨by decide, by decide, by decide, rfl, by decide,
   claimC9_amended_ledger_accepts_negative envW ⟨0, []⟩ qLedgerNeg
     (by decide) (by decide) (by decide) rfl⟩

theorem claimC10_witness :
    InsertPaymentParamsSchema qPayW = [] ∧
    (qPayW.paymentMethod ≠ PaymentMethodFedNow ∨ qPayW.amount = 0) ∧
    ∃ c : StoreCall, (insertPayment envW ⟨0, []⟩ qPayW).2.calls = [c] ∧
      findParam c "datePaid" =
        some (.stringOrNull (some (formatDate 0 envW.nowMs)) false) :=
  ⟨by decide, Or.inl (by decide),
   claimC10_formatDate_ignores_argument.2.2 envW ⟨0, []⟩ qPayW (by decide)
     (Or.inl (by decide))⟩

end PT
